import Mathlib

/-!
Verification of the claude-capsule-kit core against its specification.

The development shallowly embeds the JavaScript (and bash) sources of the
kit: pure functions become Lean functions, the filesystem and the record
store become explicit state values, clock reads (`Date.now()`) become an
explicit `now : Nat` parameter (milliseconds since the epoch), and
fallible steps return `Option`/`Except`.  Each definition is translated
from one named function of the source tree; the source file and symbol are
recorded in its doc comment.
-/

set_option maxRecDepth 40000

namespace CCK

/-! ### Strings as character lists

Lean 4.14 represents `String` as a structure holding a `List Char`, which
matches JavaScript's view of strings as character sequences closely enough
for the ASCII data handled by the kit.  Two small helper lemmas let us
cancel common prefixes of appended strings.
-/

/-- Unfolding lemma: the character data of an appended string is the
appended character data. -/
theorem string_data_append (s t : String) : (s ++ t).data = s.data ++ t.data := by
  cases s; cases t; rfl

/-- Appending on the left is cancellative for strings. -/
theorem string_append_left_cancel {p s t : String} (h : p ++ s = p ++ t) : s = t := by
  have hd : p.data ++ s.data = p.data ++ t.data := by
    rw [← string_data_append, ← string_data_append, h]
  have hst : s.data = t.data := List.append_cancel_left hd
  cases s; cases t
  exact congrArg String.mk hst

/-! ### JSON values and `JSON.stringify`

`hashConfig` (src/crew/lib/crew-config-reader.js) hashes
`JSON.stringify(configObj)`.  We embed the JSON value space that crew
configs inhabit (numbers restricted to integers, which is all the configs
use) with object keys kept in insertion order, exactly as V8's
`JSON.stringify` serializes them.
-/

/-- JSON values as produced by `JSON.parse` on a crew config: object keys
keep their textual order. -/
inductive Json where
  | null : Json
  | bool : Bool → Json
  | num : Int → Json
  | str : String → Json
  | arr : List Json → Json
  | obj : List (String × Json) → Json

/-- Escape one character the way `JSON.stringify` does (the kit's configs
contain only printable ASCII; the control-character cases carry over the
standard escapes). -/
def jsonEscapeChar (c : Char) : List Char :=
  if c = '"' then ['\\', '"']
  else if c = '\\' then ['\\', '\\']
  else if c = '\n' then ['\\', 'n']
  else if c = '\t' then ['\\', 't']
  else if c = '\r' then ['\\', 'r']
  else [c]

/-- Escape a string body for a JSON string literal. -/
def jsonEscape (s : String) : String :=
  String.mk (s.data.flatMap jsonEscapeChar)

mutual

/-- Embedding of `JSON.stringify` on `Json` values: no whitespace, object
keys in stored order. -/
def Json.stringify : Json → String
  | .null => "null"
  | .bool b => if b then "true" else "false"
  | .num i => toString i
  | .str s => "\"" ++ jsonEscape s ++ "\""
  | .arr xs => "[" ++ Json.stringifyList xs ++ "]"
  | .obj kvs => "\x7b" ++ Json.stringifyObj kvs ++ "\x7d"

/-- Comma-separated serialization of an array body. -/
def Json.stringifyList : List Json → String
  | [] => ""
  | [x] => Json.stringify x
  | x :: xs => Json.stringify x ++ "," ++ Json.stringifyList xs

/-- Comma-separated serialization of an object body. -/
def Json.stringifyObj : List (String × Json) → String
  | [] => ""
  | [(k, v)] => "\"" ++ jsonEscape k ++ "\":" ++ Json.stringify v
  | (k, v) :: kvs =>
      "\"" ++ jsonEscape k ++ "\":" ++ Json.stringify v ++ "," ++ Json.stringifyObj kvs

end

/-- Key lookup in a JSON object body (first binding wins, as in
`JSON.parse` output where keys are unique). -/
def jsonLookup (kvs : List (String × Json)) (k : String) : Option Json :=
  match kvs with
  | [] => none
  | (k', v) :: rest => if k' = k then some v else jsonLookup rest k

/-! ### SHA-256

`hashConfig` and `getProjectHash` both take the first 12 hex characters of
a SHA-256 digest (Node's `crypto.createHash('sha256')`).  We embed SHA-256
itself over byte lists, with 32-bit words as `Nat` reduced mod `2^32`.
The round constants are the standard FIPS 180-4 values.
-/

/-- Reduce to a 32-bit word. -/
def w32 (n : Nat) : Nat := n % 4294967296

/-- Right rotation of a 32-bit word. -/
def rotr32 (x n : Nat) : Nat := w32 ((x >>> n) + (x <<< (32 - n)))

/-- Bitwise complement of a 32-bit word. -/
def not32 (x : Nat) : Nat := x ^^^ 4294967295

/-- SHA-256 round constants (fractional parts of the cube roots of the
first 64 primes). -/
def sha256K : List Nat :=
  [1116352408, 1899447441, 3049323471, 3921009573, 961987163, 1508970993,
   2453635748, 2870763221, 3624381080, 310598401, 607225278, 1426881987,
   1925078388, 2162078206, 2614888103, 3248222580, 3835390401, 4022224774,
   264347078, 604807628, 770255983, 1249150122, 1555081692, 1996064986,
   2554220882, 2821834349, 2952996808, 3210313671, 3336571891, 3584528711,
   113926993, 338241895, 666307205, 773529912, 1294757372, 1396182291,
   1695183700, 1986661051, 2177026350, 2456956037, 2730485921, 2820302411,
   3259730800, 3345764771, 3516065817, 3600352804, 4094571909, 275423344,
   430227734, 506948616, 659060556, 883997877, 958139571, 1322822218,
   1537002063, 1747873779, 1955562222, 2024104815, 2227730452, 2361852424,
   2428436474, 2756734187, 3204031479, 3329325298]

/-- SHA-256 initial hash state (fractional parts of the square roots of
the first 8 primes). -/
def sha256H0 : List Nat :=
  [1779033703, 3144134277, 1013904242, 2773480762, 1359893119, 2600822924,
   528734635, 1541459225]

/-- Big-endian byte decomposition of a number, `k` bytes wide. -/
def bytesBE (k n : Nat) : List Nat :=
  (List.range k).map (fun i => (n >>> (8 * (k - 1 - i))) % 256)

/-- SHA-256 message padding: append `0x80`, zero bytes to 56 mod 64, then
the bit length as an 8-byte big-endian integer. -/
def sha256Pad (msg : List Nat) : List Nat :=
  msg ++ [128] ++ List.replicate ((119 - msg.length % 64) % 64) 0
      ++ bytesBE 8 (msg.length * 8)

/-- Split a list into 64-byte blocks, with an explicit step counter so the
definition is structurally recursive (each step drops at least one byte,
so `l.length` steps always suffice). -/
def toBlocksAux : Nat → List Nat → List (List Nat)
  | 0, _ => []
  | _ + 1, [] => []
  | n + 1, l => l.take 64 :: toBlocksAux n (l.drop 64)

/-- Split a padded message into 64-byte blocks. -/
def toBlocks (l : List Nat) : List (List Nat) := toBlocksAux l.length l

/-- Message schedule: expand a 64-byte block into the 64 words `w`. -/
def sha256Schedule (block : List Nat) : Array Nat :=
  let w0 : Array Nat := (Array.range 16).map (fun j =>
    (block.getD (4 * j) 0) <<< 24 + (block.getD (4 * j + 1) 0) <<< 16 +
    (block.getD (4 * j + 2) 0) <<< 8 + block.getD (4 * j + 3) 0)
  (List.range 48).foldl (fun w j =>
    let i := j + 16
    let x15 := w.getD (i - 15) 0
    let x2 := w.getD (i - 2) 0
    let s0 := rotr32 x15 7 ^^^ rotr32 x15 18 ^^^ (x15 >>> 3)
    let s1 := rotr32 x2 17 ^^^ rotr32 x2 19 ^^^ (x2 >>> 10)
    w.push (w32 (w.getD (i - 16) 0 + s0 + w.getD (i - 7) 0 + s1))) w0

/-- One SHA-256 compression round. -/
def sha256Round (w : Array Nat) (st : List Nat) (j : Nat) : List Nat :=
  match st with
  | [a, b, c, d, e, f, g, h] =>
      let s1 := rotr32 e 6 ^^^ rotr32 e 11 ^^^ rotr32 e 25
      let ch := (e &&& f) ^^^ (not32 e &&& g)
      let t1 := w32 (h + s1 + ch + sha256K.getD j 0 + w.getD j 0)
      let s0 := rotr32 a 2 ^^^ rotr32 a 13 ^^^ rotr32 a 22
      let maj := (a &&& b) ^^^ (a &&& c) ^^^ (b &&& c)
      let t2 := w32 (s0 + maj)
      [w32 (t1 + t2), a, b, c, w32 (d + t1), e, f, g]
  | other => other

/-- Compress one block into the running hash state. -/
def sha256Compress (h : List Nat) (block : List Nat) : List Nat :=
  let w := sha256Schedule block
  let st := (List.range 64).foldl (sha256Round w) h
  List.zipWith (fun x y => w32 (x + y)) h st

/-- SHA-256 of a byte list, as the 8 words of the digest. -/
def sha256Words (msg : List Nat) : List Nat :=
  (toBlocks (sha256Pad msg)).foldl sha256Compress sha256H0

/-- Lower-case hex digit for a value below 16. -/
def hexChar (n : Nat) : Char :=
  if n < 10 then Char.ofNat (48 + n) else Char.ofNat (87 + n)

/-- Lower-case hex string of a list of 32-bit words. -/
def wordsToHex (ws : List Nat) : String :=
  String.mk (ws.flatMap (fun w => (bytesBE 4 w).flatMap
    (fun b => [hexChar (b / 16), hexChar (b % 16)])))

/-- The bytes of an ASCII string (the kit's configs and identifiers are
ASCII, where UTF-8 bytes and code points coincide). -/
def strBytes (s : String) : List Nat := s.data.map Char.toNat

/-- Lower-case hex SHA-256 digest of an ASCII string, as Node's
`createHash('sha256').update(s).digest('hex')` returns it. -/
def sha256Hex (s : String) : String := wordsToHex (sha256Words (strBytes s))

/-- Sanity check of the SHA-256 embedding against the FIPS 180-4 test
vector for "abc". -/
theorem sha256Hex_abc :
    sha256Hex "abc" =
      "ba7816bf8f01cfea414140de5dae2223b00361a396177a9cb410ff61f20015ad" := by
  decide

/-- Embedding of `hashConfig` (src/crew/lib/crew-config-reader.js):
first 12 hex characters of the SHA-256 of `JSON.stringify(configObj)`. -/
def hashConfig (configObj : Json) : String :=
  (sha256Hex (Json.stringify configObj)).take 12

/-! ### Worktree path resolution and branch sanitization -/

/-- Character data of `branch.replace(/\//g, '--')` — the only
sanitization `resolveWorktreePath` performs
(src/crew/lib/crew-config-reader.js). -/
def sanitizeCharsJs : List Char → List Char
  | [] => []
  | c :: cs => if c = '/' then '-' :: '-' :: sanitizeCharsJs cs else c :: sanitizeCharsJs cs

/-- The sanitized branch used by `resolveWorktreePath`: every `/` becomes
`--`; all other characters are preserved. -/
def sanitizeBranchJs (branch : String) : String := String.mk (sanitizeCharsJs branch.data)

/-- Membership in the character class `[A-Za-z0-9._-]`. -/
def isWorktreeChar (c : Char) : Bool :=
  c.isAlphanum || c = '.' || c = '_' || c = '-'

/-- Embedding of `_sanitize_branch` (bash worktree manager):
`sed 's|/|--|g; s|[^a-zA-Z0-9._-]|_|g'` — first every `/` becomes `--`,
then every character outside the class becomes `_`. -/
def sanitizeBranchBash (branch : String) : String :=
  String.mk ((sanitizeBranchJs branch).data.map
    (fun c => if isWorktreeChar c then c else '_'))

/-- Embedding of `resolveWorktreePath`
(src/crew/lib/crew-config-reader.js).  The `Option String` profile models
the optional JS argument; `none`, the empty string and `"default"` all
satisfy the `!profileName || profileName === 'default'` test. -/
def resolveWorktreePath (projectRoot branch : String) (profileName : Option String) : String :=
  match profileName with
  | none => projectRoot ++ "-" ++ sanitizeBranchJs branch
  | some p =>
      if p = "" ∨ p = "default" then projectRoot ++ "-" ++ sanitizeBranchJs branch
      else projectRoot ++ "-" ++ p ++ "-" ++ sanitizeBranchJs branch

/-- The two-key demonstration config `\x7b"a":1,"b":2\x7d`. -/
def cfgAB : Json := Json.obj [("a", Json.num 1), ("b", Json.num 2)]

/-- The same bindings as `cfgAB` with the keys listed in the other
order. -/
def cfgBA : Json := Json.obj [("b", Json.num 2), ("a", Json.num 1)]

/-- C4 counterexample: `hashConfig` feeds `JSON.stringify(configObj)`
straight into SHA-256, and `JSON.stringify` serializes object keys in
insertion order, so two configs that are equal as JSON objects (their
binding lists are permutations of each other) but list their keys in
different orders hash to different 12-hex-character values. -/
theorem hashConfig_key_order_counterexample :
    cfgAB = Json.obj [("a", Json.num 1), ("b", Json.num 2)] ∧
    cfgBA = Json.obj [("b", Json.num 2), ("a", Json.num 1)] ∧
    [("a", Json.num 1), ("b", Json.num 2)].Perm [("b", Json.num 2), ("a", Json.num 1)] ∧
    hashConfig cfgAB = "43258cff783f" ∧
    hashConfig cfgBA = "3fb75453225c" ∧
    hashConfig cfgAB ≠ hashConfig cfgBA := by
  refine ⟨rfl, rfl, List.Perm.swap ("b", Json.num 2) ("a", Json.num 1) [], ?_, ?_, ?_⟩
  · decide
  · decide
  · decide

/-- C4 (amended): `hashConfig` is determined by the canonical
(insertion-ordered, whitespace-free) `JSON.stringify` serialization of the
config: equal serializations give equal hashes.  In particular textual
whitespace never influences the hash (it is discarded before `hashConfig`
runs), but key ordering does. -/
theorem hashConfig_eq_of_stringify_eq (c c' : Json)
    (h : Json.stringify c = Json.stringify c') : hashConfig c = hashConfig c' := by
  unfold hashConfig sha256Hex
  rw [h]

/-- C4 witness: the amended theorem applied at a concrete config. -/
theorem hashConfig_eq_of_stringify_eq_witness :
    Json.stringify cfgAB = Json.stringify cfgAB ∧ hashConfig cfgAB = hashConfig cfgAB :=
  ⟨rfl, hashConfig_eq_of_stringify_eq cfgAB cfgAB rfl⟩

/-- C5 counterexample: with distinct profile names and branches that stay
distinct after sanitization, `resolveWorktreePath` can still collide,
because the profile name and the sanitized branch are joined by the same
`-` separator: profile `a` with branch `b` and profile `default` with
branch `a-b` both map to `/repo-a-b`. -/
theorem resolveWorktreePath_profile_collision :
    sanitizeBranchJs "b" ≠ sanitizeBranchJs "a-b" ∧
    ("a" : String) ≠ "default" ∧
    resolveWorktreePath "/repo" "b" (some "a") =
      resolveWorktreePath "/repo" "a-b" (some "default") := by
  refine ⟨?_, ?_, ?_⟩ <;> decide

/-- C5 (amended): for a fixed profile name, `resolveWorktreePath` is
injective over branches whose sanitized forms are distinct; the collision
of the counterexample only happens across different profile names. -/
theorem resolveWorktreePath_injective_on_branches (root : String) (p : Option String)
    (b₁ b₂ : String) (h : sanitizeBranchJs b₁ ≠ sanitizeBranchJs b₂) :
    resolveWorktreePath root b₁ p ≠ resolveWorktreePath root b₂ p := by
  intro he
  apply h
  cases p with
  | none =>
      simp only [resolveWorktreePath] at he
      exact string_append_left_cancel he
  | some q =>
      simp only [resolveWorktreePath] at he
      split at he
      · exact string_append_left_cancel he
      · exact string_append_left_cancel he

/-- C5 witness: the amended theorem applied at two concrete branches of
one profile. -/
theorem resolveWorktreePath_injective_on_branches_witness :
    sanitizeBranchJs "feat/a" ≠ sanitizeBranchJs "feat/b" ∧
    resolveWorktreePath "/repo" "feat/a" (some "dev") ≠
      resolveWorktreePath "/repo" "feat/b" (some "dev") :=
  ⟨by decide,
   resolveWorktreePath_injective_on_branches "/repo" (some "dev") "feat/a" "feat/b" (by decide)⟩

/-- C6 counterexample: the sanitized branch actually used by
`resolveWorktreePath` (src/crew/lib/crew-config-reader.js) only rewrites
`/` to `--`; a branch like `feat@x` keeps its `@`, so the sanitized branch
does not match `[A-Za-z0-9._-]+`. -/
theorem sanitizeBranch_charclass_counterexample :
    resolveWorktreePath "/repo" "feat@x" none = "/repo-feat@x" ∧
    sanitizeBranchJs "feat@x" = "feat@x" ∧
    ((sanitizeBranchJs "feat@x").data.all isWorktreeChar) = false := by
  refine ⟨?_, ?_, ?_⟩ <;> decide

/-- Every character produced by `sanitizeCharsJs` is either a `-`
introduced for a slash or a character of the input other than `/`; in
particular no slash survives. -/
theorem sanitizeCharsJs_no_slash (l : List Char) :
    (sanitizeCharsJs l).all (fun c => !(c = '/')) = true := by
  induction l with
  | nil => rfl
  | cons c cs ih =>
      by_cases hc : c = '/'
      · simp [sanitizeCharsJs, hc, ih]
      · simp [sanitizeCharsJs, hc, ih]

/-- C6 (amended): the sanitized branch used to build the worktree path
contains no `/` (every `/` became `--`), for both sanitizers; but only the
bash worktree manager's `_sanitize_branch` additionally rewrites every
character outside `[A-Za-z0-9._-]` to `_`, so only its output always
matches the character class — `resolveWorktreePath` keeps such characters
unchanged. -/
theorem sanitizeBranch_amended :
    (∀ b : String, ((sanitizeBranchJs b).data.all (fun c => !(c = '/'))) = true) ∧
    (∀ b : String, ((sanitizeBranchBash b).data.all isWorktreeChar) = true) := by
  constructor
  · intro b
    exact sanitizeCharsJs_no_slash b.data
  · intro b
    simp only [sanitizeBranchBash, List.all_eq_true]
    intro c hc
    rcases List.mem_map.mp hc with ⟨x, _, rfl⟩
    by_cases hx : isWorktreeChar x = true
    · simp [hx]
    · simp only [hx, Bool.false_eq_true, if_false]
      decide

/-! ### The record store

The hooks talk to the external `blink-query` store (an out-of-scope
collaborator); we model a store as the list of its records in retrieval
("recent") order — most recently updated first — and model the query
surface the hooks rely on from the spec's interface description
(search is a substring match over title+summary, list returns the records
of a namespace, query orders by hit count).

Record `content` payloads are JSON written by the hooks themselves; we
model them as a structure carrying exactly the fields the hooks write and
read back, with absent fields as `none`/`0`.  ISO-8601 timestamps compare
like the instants they denote, so times are `Nat` milliseconds throughout
and `isoString` is their (injective, order-preserving) rendering.
-/

/-- Crew identity as the hooks consume it (`crew-identity.json`): only the
teammate name enters namespaces and tags. -/
structure CrewIdentity where
  teammate_name : String
deriving Repr, DecidableEq

/-- The content fields the hooks write and read back.  A JS `undefined`
field is `none` (or `0` for the counters that are only ever written
together with the record). -/
structure RContent where
  branch : Option String := none
  generatedAt : Nat := 0
  filePath : Option String := none
  action : Option String := none
  timestamp : Option Nat := none
  agentType : Option String := none
  prompt : Option String := none
  sourceTeammate : Option String := none
  sourceAgent : Option String := none
  promptContext : Option String := none
  trigger : Option String := none
  sessionId : Option String := none
  teammateName : Option String := none
  filesCount : Nat := 0
  subagentsCount : Nat := 0
  endedAt : Nat := 0
deriving Repr, DecidableEq

/-- One stored record (spec §3 ContextRecord / §6 store schema).  The
field `ns` is the record's namespace. -/
structure Record where
  ns : String
  title : String
  summary : String
  rtype : String
  content : RContent := {}
  tags : List String := []
  updatedAt : Nat := 0
  hitCount : Nat := 0
deriving Repr, DecidableEq

/-- Contiguous-sublist test on character lists (scan every suffix for a
prefix match). -/
def listHasInfix (sub : List Char) : List Char → Bool
  | [] => sub.isEmpty
  | l@(_ :: t) => sub.isPrefixOf l || listHasInfix sub t

/-- JS `a.includes(b)` on strings: substring test. -/
def hasSubstr (s sub : String) : Bool := listHasInfix sub.data s.data

/-- JS `a.startsWith(b)` on strings. -/
def strStartsWith (s p : String) : Bool := p.data.isPrefixOf s.data

/-- Modelled from the spec: `search(term, limit)` matches records whose
title or summary contains the term, in the store's recency order (the
store list itself is kept in that order). -/
def searchStore (store : List Record) (term : String) : List Record :=
  store.filter (fun r => hasSubstr r.title term || hasSubstr r.summary term)

/-- Modelled from the spec: `list(namespace, 'recent')` returns the
records stored at the namespace, in recency order. -/
def listNs (store : List Record) (ns : String) : List Record :=
  store.filter (fun r => r.ns == ns)

/-- Stable insertion of an element into a descending-by-key list: the new
element goes after every element with an equal or larger key. -/
def insertDescBy {α : Type} (f : α → Nat) : List α → α → List α
  | [], r => [r]
  | x :: xs, r => if f x < f r then r :: x :: xs else x :: insertDescBy f xs r

/-- Stable descending sort by a `Nat` key, as JS `Array.prototype.sort`
with comparator `(a, b) => f(b) - f(a)` (V8's sort is stable). -/
def sortDescBy {α : Type} (f : α → Nat) (l : List α) : List α :=
  l.foldl (insertDescBy f) []

/-- JS string-or-default: `a || d` where the empty string is falsy and an
absent (`undefined`) value is `none`. -/
def jsOr (a : Option String) (d : String) : String :=
  match a with
  | some s => if s = "" then d else s
  | none => d

/-- JS `Array.prototype.join(sep)`. -/
def jsJoin (sep : String) : List String → String
  | [] => ""
  | [x] => x
  | x :: xs => x ++ sep ++ jsJoin sep xs

/-- JS `String.prototype.toLowerCase` for the ASCII tool names involved
(charwise, so it evaluates in the kernel). -/
def jsToLower (s : String) : String := String.mk (s.data.map Char.toLower)

/-- Embedding of `crewNamespace` (src/hooks/lib/crew-detect.js): an
optional `proj/<hash>/` tenant prefix, then `crew/<teammate>/` when a crew
identity is present, then the base namespace. -/
def crewNamespace (base : String) (crewId : Option CrewIdentity) (projectHash : Option String) : String :=
  let projPrefix := match projectHash with
    | some h => if h = "" then "" else "proj/" ++ h ++ "/"
    | none => ""
  match crewId with
  | some c => projPrefix ++ "crew/" ++ c.teammate_name ++ "/" ++ base
  | none => projPrefix ++ base

/-- Node `path.basename` (posix): strip trailing slashes, then keep the
segment after the last remaining slash. -/
def basename (p : String) : String :=
  let stripped := (p.data.reverse.dropWhile (fun c => c = '/')).reverse
  String.mk (stripped.reverse.takeWhile (fun c => ¬ (c = '/'))).reverse

/-- Rendering of a millisecond timestamp where the source formats an
ISO-8601 date (`new Date(ms).toISOString()`): an injective,
order-preserving stand-in for the calendar text, which no claim
inspects. -/
def isoString (ms : Nat) : String := toString ms

/-- JS `String.prototype.trim` (ASCII whitespace). -/
def jsTrim (s : String) : String :=
  String.mk (((s.data.dropWhile Char.isWhitespace).reverse.dropWhile Char.isWhitespace).reverse)

/-- JS `Math.round (a / b)` for a non-negative quotient: round half
up. -/
def roundDiv (a b : Nat) : Nat := (a + b / 2) / b

/-! ### Session-start auto-prune (C10)

src/hooks/session-start.js lines 197-203: the hook opens the single
global store and runs `DELETE FROM records WHERE updated_at < ?` with the
cutoff 30 days before now — one SQL statement over the whole `records`
table, with no namespace condition.
-/

/-- The prune cutoff: 30 days before `now`, in milliseconds. -/
def pruneCutoff (now : Nat) : Nat := now - 30 * 86400000

/-- Embedding of the session-start auto-prune: the store keeps exactly the
records not older than the cutoff. -/
def autoPrune (now : Nat) (store : List Record) : List Record :=
  store.filter (fun r => ¬ (r.updatedAt < pruneCutoff now))

/-- C10: the auto-prune deletes every record of the shared global store
whose `updated_at` is older than 30 days and keeps every other record
unchanged; membership after pruning depends only on the timestamp, never
on the record's namespace (project, crew or teammate), so records of
other projects and crews are deleted too. -/
theorem autoprune_unscoped_by_namespace (now : Nat) (store : List Record) (r : Record) :
    (r ∈ autoPrune now store ↔ r ∈ store ∧ ¬ (r.updatedAt < pruneCutoff now)) ∧
    (∀ ns' : String, { r with ns := ns' } ∈ autoPrune now [{ r with ns := ns' }] ↔
      ¬ (r.updatedAt < pruneCutoff now)) := by
  constructor
  · simp [autoPrune, List.mem_filter]
  · intro ns'
    simp [autoPrune, List.mem_filter]

/-! ### Post-tool-use hook (src/hooks/post-tool-use.js)

The hook reads a JSON event from stdin and, depending on the tool, saves
a file-operation META record, a sub-agent SUMMARY record, and (in crew
mode) a heuristic discovery SUMMARY record, then surfaces related
discoveries for `Read` events.
-/

/-- The `tool_input` fields the hook consumes (spec §6 / open
questions). -/
structure ToolInput where
  file_path : Option String := none
  path : Option String := none
  subagent_type : Option String := none
  prompt : Option String := none
deriving Repr, DecidableEq

/-- The stdin event payload fields the hooks consume.  `tool_result` is
the result text (the hook stringifies non-string results). -/
structure HookInput where
  session_id : Option String := none
  tool_name : Option String := none
  tool_input : Option ToolInput := none
  tool_result : Option String := none
deriving Repr, DecidableEq

/-- The file-operation record saved for `Read`/`Write`/`Edit` events with
an acceptable file path (post-tool-use.js lines 69-87). -/
def fileCaptureRecord (now : Nat) (projectHash : String) (crewId : Option CrewIdentity)
    (toolName sessionId filePath : String) : Option Record :=
  if ["Read", "Write", "Edit"].contains toolName then
    if filePath ≠ "" ∧ ¬ (hasSubstr filePath "node_modules") ∧ ¬ (hasSubstr filePath ".git/") then
      let action := jsToLower toolName
      some {
        ns := crewNamespace ("session/" ++ sessionId ++ "/files") crewId (some projectHash)
        title := basename filePath
        summary := action ++ ": " ++ filePath
        rtype := "META"
        content := { filePath := some filePath, action := some action, timestamp := some now }
        tags := ["file", action, sessionId] ++
          (match crewId with | some c => [c.teammate_name] | none => [])
        updatedAt := now }
    else none
  else none

/-- The sub-agent record saved for `Task` events that carry both an agent
type and a prompt (post-tool-use.js lines 91-109). -/
def subagentRecord (now : Nat) (projectHash : String) (crewId : Option CrewIdentity)
    (sessionId : String) (ti : ToolInput) : Option Record :=
  match ti.subagent_type, ti.prompt with
  | some agentType, some prompt =>
      if agentType ≠ "" ∧ prompt ≠ "" then
        some {
          ns := crewNamespace ("session/" ++ sessionId ++ "/subagents") crewId (some projectHash)
          title := agentType ++ " - " ++ isoString now
          summary := prompt.take 200
          rtype := "SUMMARY"
          content := { agentType := some agentType, prompt := some (prompt.take 500),
                       timestamp := some now }
          tags := ["subagent", agentType, sessionId] ++
            (match crewId with | some c => [c.teammate_name] | none => [])
          updatedAt := now }
      else none
  | _, _ => none

/-- The discovery heuristics of post-tool-use.js lines 119-127: keyword
(matched case-insensitively), and whether the pattern requires at least
one whitespace character after it (`\s+`) or accepts none (`\s*`). -/
def discoveryKeywords : List (String × Bool) :=
  [("found", true), ("discovered", true), ("identified", true),
   ("pattern:", false), ("issue:", false), ("important:", false),
   ("key finding:", false)]

/-- The capture of `([^.]{10,100})`: a greedy run of non-period
characters, truncated at 100. -/
def discoveryCapture (cs : List Char) : List Char :=
  (cs.takeWhile (fun c => ¬ (c = '.'))).take 100

/-- Try one discovery pattern at the head of the text: keyword
(case-insensitive), whitespace run, then a capture of at least 10
characters.  (Regex backtracking into the whitespace run, which could
rescue borderline captures, is not modelled; no claim depends on the
discovery heuristic.) -/
def tryPatternAt (kw : List Char) (needWs : Bool) (cs : List Char) : Option (List Char) :=
  if (cs.take kw.length).map Char.toLower = kw then
    let rest := cs.drop kw.length
    let ws := rest.takeWhile Char.isWhitespace
    if needWs ∧ ws.length = 0 then none
    else
      let cap := discoveryCapture (rest.drop ws.length)
      if 10 ≤ cap.length then some cap else none
  else none

/-- Leftmost match of one discovery pattern in the text. -/
def findPatternFrom (kw : List Char) (needWs : Bool) : List Char → Option (List Char)
  | [] => tryPatternAt kw needWs []
  | cs@(_ :: rest) =>
      match tryPatternAt kw needWs cs with
      | some cap => some cap
      | none => findPatternFrom kw needWs rest

/-- First matching pattern, in the order the source lists them. -/
def firstDiscovery (text : String) : Option String :=
  (discoveryKeywords.foldl (fun acc kv =>
    match acc with
    | some r => some r
    | none => (findPatternFrom kv.1.data kv.2 text.data).map String.mk) none)

/-- The crew-shared discovery record auto-saved for specialist sub-agent
results (post-tool-use.js lines 112-160).  Accessing `prompt.slice` with
an absent prompt throws inside the inner try/catch, so no record is saved
then. -/
def discoveryRecord (now : Nat) (projectHash : String) (crewId : Option CrewIdentity)
    (ti : ToolInput) (toolResult : Option String) : Option Record :=
  match crewId with
  | none => none
  | some c =>
      match ti.subagent_type, toolResult with
      | some agentType, some resultText =>
          if agentType ≠ "" ∧ resultText ≠ "" then
            if agentType ≠ "general-purpose" ∧ 100 < resultText.length then
              match firstDiscovery resultText with
              | some cap =>
                  match ti.prompt with
                  | some prompt =>
                      let finding := jsTrim cap
                      some {
                        ns := crewNamespace "_shared/discoveries" (some c) (some projectHash)
                        title := agentType ++ ": " ++ finding.take 60 ++ "..."
                        summary := finding
                        rtype := "SUMMARY"
                        content := { sourceTeammate := some c.teammate_name,
                                     sourceAgent := some agentType,
                                     timestamp := some now,
                                     promptContext := some (prompt.take 200) }
                        tags := ["discovery", "crew-shared", agentType, c.teammate_name]
                        updatedAt := now }
                  | none => none
              | none => none
            else none
          else none
      | _, _ => none

/-- All records the post-tool-use hook saves for one event, in save
order. -/
def postToolUseSaves (now : Nat) (projectHash : String) (crewId : Option CrewIdentity)
    (input : HookInput) : List Record :=
  let ti := input.tool_input.getD {}
  let sessionId := jsOr input.session_id "default"
  let filePath := jsOr ti.file_path (jsOr ti.path "")
  let toolName := input.tool_name.getD ""
  (fileCaptureRecord now projectHash crewId toolName sessionId filePath).toList ++
  (if toolName = "Task" then
    (subagentRecord now projectHash crewId sessionId ti).toList ++
    (discoveryRecord now projectHash crewId ti input.tool_result).toList
  else [])

/-- The "Related Discoveries" markdown fragment printed for `Read` events
(post-tool-use.js lines 163-201).  With structured record content the
`content.includes` branch is the constant `false` branch of the source's
`typeof` test, so only summaries are matched. -/
def postToolUseSurface (store : List Record) (projectHash : String)
    (crewId : Option CrewIdentity) (input : HookInput) : String :=
  let ti := input.tool_input.getD {}
  let filePath := jsOr ti.file_path (jsOr ti.path "")
  let toolName := input.tool_name.getD ""
  if toolName = "Read" ∧ filePath ≠ "" then
    let fileName := basename filePath
    let allDiscoveries :=
      listNs store "discoveries" ++
      listNs store (crewNamespace "_shared/discoveries" crewId (some projectHash)) ++
      listNs store (crewNamespace "discoveries" none (some projectHash))
    let related := allDiscoveries.filter (fun r =>
      hasSubstr r.summary filePath || hasSubstr r.summary fileName)
    if related.isEmpty then ""
    else "\n## Related Discoveries\n" ++
      String.join (related.map (fun d => "- **" ++ d.title ++ "**: " ++ d.summary ++ "\n"))
  else ""

/-! ### Session-start hook (src/hooks/session-start.js)

The hook prunes the store, then assembles `additionalContext` from a
handoff (or a prior-session fallback), top discoveries, recent files,
team activity, and a crew-config profile table.  The filesystem state the
crew-config section reads is modelled by `CrewFsView`; files written by
the kit itself are well-formed, so the silent catch branches for
malformed JSON do not arise in the model.
-/

/-- A teammate reference inside `.crew-config.json` (only the name is
rendered by the hook). -/
structure CfgTeammateRef where
  name : String
deriving Repr, DecidableEq

/-- A team or profile object of `.crew-config.json` as the session-start
hook reads it. -/
structure CfgProfile where
  name : String
  teammates : List CfgTeammateRef
  stale_after_hours : Option Nat := none
deriving Repr, DecidableEq

/-- `.crew-config.json` as the session-start hook reads it
(`defaultName` models the `default` key). -/
structure CrewCfg where
  profiles : Option (List (String × CfgProfile)) := none
  defaultName : Option String := none
  team : Option CfgProfile := none
  stale_after_hours : Option Nat := none
deriving Repr, DecidableEq

/-- One teammate's entry in `team-state.json`. -/
structure StateTeammate where
  branch : Option String := none
  worktree_path : Option String := none
  status : String
  agent_id : Option String := none
  last_active : Option Nat := none
deriving Repr, DecidableEq

/-- A profile's `team-state.json` (teammates as an insertion-ordered
association list, like `Object.entries`). -/
structure TeamState where
  team_name : String := ""
  profile_name : String := ""
  config_hash : String := ""
  status : String
  started_at : Nat := 0
  updated_at : Nat
  teammates : List (String × StateTeammate)
deriving Repr, DecidableEq

/-- The filesystem the session-start crew section reads: the crew config
(if present and parsable), the per-project `worktrees.json` map, the
per-profile `team-state.json` files, and the legacy flat state file. -/
structure CrewFsView where
  config : Option CrewCfg := none
  worktrees : Option (List (String × String)) := none
  profileStates : List (String × TeamState) := []
  flatState : Option TeamState := none
deriving Repr, DecidableEq

/-- First-match association-list lookup (JS object key access for objects
built by `JSON.parse`, whose keys are unique). -/
def alookup {α : Type} (l : List (String × α)) (k : String) : Option α :=
  (l.find? (fun kv => kv.1 == k)).map (·.2)

/-- Lookup in a map built by repeated assignment (last write wins). -/
def wtLookup (l : List (String × String)) (k : String) : Option String :=
  (l.reverse.find? (fun kv => kv.1 == k)).map (·.2)

/-- JS `wtPath.split('/').slice(-2).join('/')`. -/
def lastTwoSegments (p : String) : String :=
  let parts := p.splitOn "/"
  jsJoin "/" (parts.drop (parts.length - 2))

/-- The pruning notice part (session-start.js lines 197-203). -/
def pruneNoticeParts (now : Nat) (store0 : List Record) : List String :=
  if 0 < store0.length - (autoPrune now store0).length then
    ["[CCK] Auto-pruned " ++ toString (store0.length - (autoPrune now store0).length) ++
      " stale records."]
  else []

/-- The handoff candidates (session-start.js lines 211-218): a text
search for "handoff", filtered to the teammate's crew session namespaces
in crew mode and to non-crew namespaces otherwise. -/
def relevantHandoffs (store : List Record) (crewId : Option CrewIdentity) : List Record :=
  match crewId with
  | some c => (searchStore store "handoff").filter
      (fun h => hasSubstr h.ns ("crew/" ++ c.teammate_name ++ "/session"))
  | none => (searchStore store "handoff").filter (fun h => !(hasSubstr h.ns "crew/"))

/-- The handoff the hook injects: candidates sorted by
`content.generatedAt` descending (stable), first taken
(session-start.js lines 221-231). -/
def pickHandoff (store : List Record) (crewId : Option CrewIdentity) : Option Record :=
  (sortDescBy (fun r => r.content.generatedAt) (relevantHandoffs store crewId)).head?

/-- The teammate suffix of the handoff heading. -/
def teammateSuffix (crewId : Option CrewIdentity) : String :=
  match crewId with
  | some c => " (" ++ c.teammate_name ++ ")"
  | none => ""

/-- `session.summary || session.title`. -/
def sessionSummaryLine (r : Record) : String :=
  if r.summary = "" then r.title else r.summary

/-- The branch-matching loop of session-start.js lines 247-270: first
component is the first session whose stored `content.branch` equals the
current branch (the loop breaks there); second component is the fallback,
the first non-matching session seen before that. -/
def branchScan (b : String) : List Record → Option Record × Option Record
  | [] => (none, none)
  | r :: rs =>
      if r.content.branch == some b then (some r, none)
      else ((branchScan b rs).1, some r)

/-- The prior-session fallback part (session-start.js lines 241-283,
else branch). -/
def sessionFallbackPart (store : List Record) (sessionNs : String)
    (currentBranch : Option String) : List String :=
  match currentBranch with
  | some b =>
      match (branchScan b ((listNs store sessionNs).take 10)).1 <|>
          (branchScan b ((listNs store sessionNs).take 10)).2 with
      | some s =>
          [(if (branchScan b ((listNs store sessionNs).take 10)).1.isSome then
              "## Branch Context (" ++ b ++ ")"
            else "## Last Session") ++ "\n" ++ sessionSummaryLine s]
      | none => []
  | none =>
      match ((listNs store sessionNs).take 10).head? with
      | some s => ["## Last Session" ++ "\n" ++ sessionSummaryLine s]
      | none => []

/-- The continuity part: the handoff when one with a non-empty summary is
picked, else the prior-session fallback (session-start.js lines
208-283). -/
def continuityParts (store : List Record) (crewId : Option CrewIdentity)
    (currentBranch : Option String) (sessionNs : String) : List String :=
  match pickHandoff store crewId with
  | some h =>
      if h.summary = "" then sessionFallbackPart store sessionNs currentBranch
      else ["## Session Handoff" ++ teammateSuffix crewId ++ "\n\n" ++ h.summary]
  | none => sessionFallbackPart store sessionNs currentBranch

/-- The namespace the top-discoveries query targets (session-start.js
lines 285-287). -/
def discoveryQueryNs (crewId : Option CrewIdentity) (projectHash : String) : String :=
  match crewId with
  | some _ =>
      if projectHash ≠ "" then "proj/" ++ projectHash ++ "/crew/_shared/discoveries"
      else "crew/_shared/discoveries"
  | none => crewNamespace "discoveries" none (some projectHash)

/-- The top-discoveries part (session-start.js lines 285-295); the
`order by hit_count desc limit 5` query is modelled from the spec as a
stable descending sort over the namespace's records. -/
def discoveriesPart (store : List Record) (crewId : Option CrewIdentity)
    (projectHash : String) : List String :=
  if ((sortDescBy (fun r => r.hitCount)
      (listNs store (discoveryQueryNs crewId projectHash))).take 5).isEmpty then []
  else ["## Top Discoveries\n" ++
    jsJoin "\n" (((sortDescBy (fun r => r.hitCount)
      (listNs store (discoveryQueryNs crewId projectHash))).take 5).map
        (fun d => "- " ++ d.title ++ ": " ++ d.summary.take 100))]

/-- The recent-files part (session-start.js lines 297-304). -/
def recentFilesPart (store : List Record) : List String :=
  if ((searchStore store "file").take 3).isEmpty then []
  else ["## Recent Files\n" ++
    jsJoin "\n" (((searchStore store "file").take 3).map
      (fun f => "- " ++ f.title ++ ": " ++ f.summary.take 80))]

/-- The team-activity part (session-start.js lines 306-317). -/
def teamActivityPart (store : List Record) (crewId : Option CrewIdentity) : List String :=
  match crewId with
  | none => []
  | some c =>
      if (((listNs store "crew").take 3).filter
          (fun s => !(strStartsWith s.ns ("crew/" ++ c.teammate_name)))).isEmpty then []
      else ["## Team Activity\n" ++
        jsJoin "\n" ((((listNs store "crew").take 3).filter
          (fun s => !(strStartsWith s.ns ("crew/" ++ c.teammate_name)))).map
            (fun s => "- " ++ s.title ++ ": " ++ s.summary.take 80))]

/-- The teammate status table shared by both crew-config branches
(session-start.js lines 358-367 and 409-418, which duplicate this
block). -/
def teamTableLines (wtMap : List (String × String)) (st : TeamState)
    (ageHours : Nat) (isStale : Bool) : List String :=
  ["", "| Teammate | Status | Branch | Worktree |", "|----------|--------|--------|----------|"]
  ++ st.teammates.map (fun nm =>
      let wtPath := jsOr nm.2.worktree_path (jsOr (wtLookup wtMap nm.1) "N/A")
      let shortPath := if wtPath ≠ "N/A" then lastTwoSegments wtPath else "N/A"
      "| " ++ nm.1 ++ " | " ++ nm.2.status ++ " | " ++ jsOr nm.2.branch "unknown" ++ " | " ++
        shortPath ++ " |")
  ++ ["", "Last active: " ++ toString ageHours ++ "h ago" ++ (if isStale then " (STALE)" else "")]

/-- The crew-config profile section (session-start.js lines 319-431). -/
def crewConfigPart (now : Nat) (fs : CrewFsView) : Option String :=
  match fs.config with
  | none => none
  | some cfg =>
      match cfg.profiles with
      | some profs =>
          let wtMap := fs.worktrees.getD []
          let head := "## Crew Profiles: " ++ jsJoin ", " (profs.map (fun pv => pv.1))
          let defaultLine := match cfg.defaultName with
            | some d => if d = "" then [] else ["Default: " ++ d]
            | none => []
          let profileLines := profs.flatMap (fun pv =>
            ["\n### " ++ pv.1 ++ ": " ++ pv.2.name,
             "Teammates: " ++ jsJoin ", " (pv.2.teammates.map (fun t => t.name))] ++
            (match alookup fs.profileStates pv.1 with
             | some st =>
                 let ageHours := roundDiv (now - st.updated_at) 3600000
                 let staleAfter := pv.2.stale_after_hours.getD (cfg.stale_after_hours.getD 4)
                 let isStale := staleAfter < ageHours
                 teamTableLines wtMap st ageHours isStale ++
                 (if isStale then
                    ["\nStale (>" ++ toString staleAfter ++ "h). Use `cck crew start " ++ pv.1 ++
                      "` for fresh launch."]
                  else
                    ["\nResumable. Use `cck crew start " ++ pv.1 ++ "` to launch."])
             | none => ["No previous session. Use `cck crew start " ++ pv.1 ++ "` to launch."]))
          some (jsJoin "\n" ([head] ++ defaultLine ++ profileLines))
      | none =>
          match cfg.team with
          | some team =>
              let wtMap := fs.worktrees.getD []
              let head := "## Team: " ++ team.name
              let mates := "Teammates: " ++ jsJoin ", " (team.teammates.map (fun t => t.name))
              let stOpt := match alookup fs.profileStates "default" with
                | some st => some st
                | none => fs.flatState
              let tailLines := match stOpt with
                | some st =>
                    let ageHours := roundDiv (now - st.updated_at) 3600000
                    let staleAfter := cfg.stale_after_hours.getD 4
                    let isStale := staleAfter < ageHours
                    teamTableLines wtMap st ageHours isStale ++
                    (if isStale then
                       ["\nStale (>" ++ toString staleAfter ++ "h). Use `cck crew start` for fresh launch."]
                     else
                       ["\nTeammates may be resumable. Use `cck crew start` to launch."])
                | none => ["No previous team session. Use `cck crew start` to launch."]
              some (jsJoin "\n" ([head, mates] ++ tailLines))
          | none => none

/-- All `contextParts` of one session-start invocation, in push order
(the store is pruned first, and every later query runs on the pruned
store). -/
def sessionStartParts (now : Nat) (store0 : List Record) (crewId : Option CrewIdentity)
    (currentBranch : Option String) (projectHash : String) (fs : CrewFsView) : List String :=
  let store := autoPrune now store0
  pruneNoticeParts now store0
  ++ continuityParts store crewId currentBranch (crewNamespace "session" crewId (some projectHash))
  ++ discoveriesPart store crewId projectHash
  ++ recentFilesPart store
  ++ teamActivityPart store crewId
  ++ (crewConfigPart now fs).toList

/-- The hook's `additionalContext` string (session-start.js lines
433-439). -/
def sessionStartContext (now : Nat) (store0 : List Record) (crewId : Option CrewIdentity)
    (currentBranch : Option String) (projectHash : String) (fs : CrewFsView)
    (didCleanup : Bool) : String :=
  let parts := sessionStartParts now store0 crewId currentBranch projectHash fs
  (if parts.isEmpty then "" else "# Capsule Context\n\n" ++ jsJoin "\n\n" parts ++ "\n\n---")
  ++ (if didCleanup then "\n\n[CCK] Cleaned up local v2 artifacts from this project." else "")

/-! ### Session-end hook and pre-compact hook (src/hooks/session-end.js)

`session-end.js` holds both the session-end handler and the pre-compact
handler; the latter builds its document with `generateHandoff`
(src/hooks/lib/handoff-generator.js).
-/

/-- The session summary record saved by the session-end hook. -/
def sessionEndRecord (now : Nat) (projectHash : String) (crewId : Option CrewIdentity)
    (sessionId : String) (store : List Record) : Record :=
  let filesNs := crewNamespace ("session/" ++ sessionId ++ "/files") crewId (some projectHash)
  let agentsNs := crewNamespace ("session/" ++ sessionId ++ "/subagents") crewId (some projectHash)
  let nf := (listNs store filesNs).length
  let na := (listNs store agentsNs).length
  { ns := crewNamespace "session" crewId (some projectHash)
    title := "Session " ++ isoString now
    summary := jsJoin " | "
      ["Session " ++ sessionId ++ teammateSuffix crewId,
       "Files accessed: " ++ toString nf,
       "Sub-agents used: " ++ toString na,
       "Completed at: " ++ isoString now]
    rtype := "META"
    content := { sessionId := some sessionId, teammateName := crewId.map (fun c => c.teammate_name),
                 filesCount := nf, subagentsCount := na, endedAt := now }
    tags := ["session", sessionId] ++
      (match crewId with | some c => [c.teammate_name] | none => [])
    updatedAt := now }

/-- The file-group accumulator of `generateHandoff`: files grouped under
write, edit and read actions. -/
def handoffFileGroups (fileRecords : List Record) : List String × List String × List String :=
  fileRecords.foldl (fun g record =>
    let action := jsOr record.content.action "read"
    let filePath := jsOr record.content.filePath
      (jsOr ((record.summary.splitOn ": ").get? 1) record.title)
    if action = "write" then (g.1 ++ [filePath], g.2.1, g.2.2)
    else if action = "edit" then (g.1, g.2.1 ++ [filePath], g.2.2)
    else if action = "read" then (g.1, g.2.1, g.2.2 ++ [filePath])
    else g) ([], [], [])

/-- Embedding of `generateHandoff` (src/hooks/lib/handoff-generator.js):
the markdown continuity document built from the session's file and
sub-agent records.  With a readable store the catch fallback never
fires. -/
def generateHandoff (store : List Record) (sessionId : String) (crewId : Option CrewIdentity)
    (projectHash : String) : String :=
  let filesNs := crewNamespace ("session/" ++ sessionId ++ "/files") crewId (some projectHash)
  let agentsNs := crewNamespace ("session/" ++ sessionId ++ "/subagents") crewId (some projectHash)
  let fileRecords := listNs store filesNs
  let agentRecords := listNs store agentsNs
  let groups := handoffFileGroups fileRecords
  let fileParts :=
    if 0 < fileRecords.length then
      ["## What Was Accomplished\n"] ++
      (if groups.1 ≠ [] then ["**Created:**"] ++ groups.1.map (fun f => "- " ++ f) ++ [""] else []) ++
      (if groups.2.1 ≠ [] then ["**Modified:**"] ++ groups.2.1.map (fun f => "- " ++ f) ++ [""] else []) ++
      (if groups.2.2 ≠ [] ∧ groups.2.2.length ≤ 5 then
        ["**Reviewed:**"] ++ (groups.2.2.take 5).map (fun f => "- " ++ f) ++
        (if 5 < groups.2.2.length then
          ["- ...and " ++ toString (groups.2.2.length - 5) ++ " more files"] else []) ++ [""]
       else [])
    else []
  let agentParts :=
    if 0 < agentRecords.length then
      ["## Sub-Agents Used\n"] ++
      agentRecords.map (fun r =>
        "- **" ++ jsOr r.content.agentType "unknown" ++ "**: " ++
          jsOr (some r.summary) (jsOr (r.content.prompt.map (fun p => p.take 150)) "No summary")) ++
      [""]
    else []
  let summaryParts :=
    ["## Session Summary\n",
     "- Files touched: " ++ toString fileRecords.length,
     "- Agents invoked: " ++ toString agentRecords.length]
  let durationParts :=
    if 0 < fileRecords.length ∨ 0 < agentRecords.length then
      let timestamps := (fileRecords ++ agentRecords).filterMap (fun r => r.content.timestamp)
      if 2 ≤ timestamps.length then
        match timestamps with
        | [] => []
        | t :: ts =>
            let tmin := ts.foldl Nat.min t
            let tmax := ts.foldl Nat.max t
            let durationMin := roundDiv (tmax - tmin) 60000
            if 0 < durationMin then ["- Duration: ~" ++ toString durationMin ++ "m"] else []
      else []
    else []
  jsJoin "\n" (fileParts ++ agentParts ++ summaryParts ++ durationParts)

/-- The handoff record saved by the pre-compact hook (session-end.js
lines 126-140 of the pre-compact handler). -/
def preCompactRecord (now : Nat) (projectHash : String) (crewId : Option CrewIdentity)
    (sessionId : String) (branch : Option String) (store : List Record) : Record :=
  { ns := crewNamespace ("session/" ++ sessionId ++ "/handoff") crewId (some projectHash)
    title := "Pre-compact handoff " ++ sessionId
    summary := generateHandoff store sessionId crewId projectHash
    rtype := "SUMMARY"
    content := { sessionId := some sessionId, teammateName := crewId.map (fun c => c.teammate_name),
                 branch := branch, trigger := some "pre-compact", generatedAt := now }
    tags := ["handoff", "pre-compact", sessionId] ++
      (match crewId with | some c => [c.teammate_name] | none => [])
    updatedAt := now }

/-! ### Hook processes and exit codes (C1)

Each hook handler is `async function main() { try { ... } catch { ... } }`
followed by `main()`.  We model one invocation's environment — the parse
result of stdin (`none` = malformed JSON), the disable marker, whether
the store could be opened (`new Blink` throws on an unopenable database),
and an injectable fault standing for any internal exception of a later
step — and the handler as an `Except`-valued body whose `ok` value is the
argument of the `process.exit` it reaches (normal completion of `main`
also ends the process with code 0).  The catch handlers print at most a
diagnostic to stderr and exit 0.
-/

/-- One hook invocation's environment. -/
structure HookEnv where
  stdin : Option HookInput := none
  disabled : Bool := false
  storeOk : Bool := true
  store : List Record := []
  crewId : Option CrewIdentity := none
  projectHash : String := ""
  currentBranch : Option String := none
  fs : CrewFsView := {}
  didCleanup : Bool := false
  now : Nat := 0
  fault : Option String := none

/-- The exit code of a hook whose body produced `body`: a thrown error
reaches the catch handler, which exits 0. -/
def hookExit (body : Except String Nat) : Nat :=
  match body with
  | Except.ok n => n
  | Except.error _ => 0

/-- Body of the post-tool-use handler (src/hooks/post-tool-use.js
`main`). -/
def postToolUseBody (env : HookEnv) : Except String Nat :=
  match env.stdin with
  | none => Except.error "SyntaxError: Unexpected end of JSON input"
  | some input =>
      if env.disabled then Except.ok 0
      else if env.storeOk = false then Except.error "SQLITE_CANTOPEN: unable to open database file"
      else
        match env.fault with
        | some e => Except.error e
        | none =>
            let _saves := postToolUseSaves env.now env.projectHash env.crewId input
            let _output := postToolUseSurface env.store env.projectHash env.crewId input
            Except.ok 0

/-- Exit code of one post-tool-use invocation. -/
def postToolUseExit (env : HookEnv) : Nat := hookExit (postToolUseBody env)

/-- Body of the session-start handler (src/hooks/session-start.js
`main`). -/
def sessionStartBody (env : HookEnv) : Except String Nat :=
  match env.stdin with
  | none => Except.error "SyntaxError: Unexpected end of JSON input"
  | some _input =>
      if env.disabled then Except.ok 0
      else if env.storeOk = false then Except.error "SQLITE_CANTOPEN: unable to open database file"
      else
        match env.fault with
        | some e => Except.error e
        | none =>
            let _context := sessionStartContext env.now env.store env.crewId env.currentBranch
              env.projectHash env.fs env.didCleanup
            Except.ok 0

/-- Exit code of one session-start invocation. -/
def sessionStartExit (env : HookEnv) : Nat := hookExit (sessionStartBody env)

/-- Body of the session-end handler (src/hooks/session-end.js `main`). -/
def sessionEndBody (env : HookEnv) : Except String Nat :=
  match env.stdin with
  | none => Except.error "SyntaxError: Unexpected end of JSON input"
  | some input =>
      if env.disabled then Except.ok 0
      else if env.storeOk = false then Except.error "SQLITE_CANTOPEN: unable to open database file"
      else
        match env.fault with
        | some e => Except.error e
        | none =>
            let _saved := sessionEndRecord env.now env.projectHash env.crewId
              (jsOr input.session_id "default") env.store
            Except.ok 0

/-- Exit code of one session-end invocation. -/
def sessionEndExit (env : HookEnv) : Nat := hookExit (sessionEndBody env)

/-- Body of the pre-compact handler (the second handler of
src/hooks/session-end.js). -/
def preCompactBody (env : HookEnv) : Except String Nat :=
  match env.stdin with
  | none => Except.error "SyntaxError: Unexpected end of JSON input"
  | some input =>
      if env.disabled then Except.ok 0
      else if env.storeOk = false then Except.error "SQLITE_CANTOPEN: unable to open database file"
      else
        match env.fault with
        | some e => Except.error e
        | none =>
            let _saved := preCompactRecord env.now env.projectHash env.crewId
              (jsOr input.session_id "default") env.currentBranch env.store
            Except.ok 0

/-- Exit code of one pre-compact invocation. -/
def preCompactExit (env : HookEnv) : Nat := hookExit (preCompactBody env)

/-- C1: every hook event handler — post-tool-use, session-start,
session-end, pre-compact — exits with code 0 on every input: malformed
stdin JSON, a missing or unopenable record store, and any internal
exception all reach the catch handler, which exits 0; every explicit exit
in the bodies is `process.exit(0)`. -/
theorem hooks_always_exit_zero (env : HookEnv) :
    postToolUseExit env = 0 ∧ sessionStartExit env = 0 ∧
    sessionEndExit env = 0 ∧ preCompactExit env = 0 := by
  refine ⟨?_, ?_, ?_, ?_⟩ <;>
  · first
    | (unfold postToolUseExit postToolUseBody
       rcases env.stdin with _ | input <;>
         cases env.disabled <;> cases hs : env.storeOk <;> rcases env.fault with _ | f <;>
         simp [hookExit, hs]
       )
    | (unfold sessionStartExit sessionStartBody
       rcases env.stdin with _ | input <;>
         cases env.disabled <;> cases hs : env.storeOk <;> rcases env.fault with _ | f <;>
         simp [hookExit, hs]
       )
    | (unfold sessionEndExit sessionEndBody
       rcases env.stdin with _ | input <;>
         cases env.disabled <;> cases hs : env.storeOk <;> rcases env.fault with _ | f <;>
         simp [hookExit, hs]
       )
    | (unfold preCompactExit preCompactBody
       rcases env.stdin with _ | input <;>
         cases env.disabled <;> cases hs : env.storeOk <;> rcases env.fault with _ | f <;>
         simp [hookExit, hs]
       )

/-! ### Post-tool-use file capture (C3) -/

/-- String append is associative (inherited from list append). -/
theorem string_append_assoc (a b c : String) : (a ++ b) ++ c = a ++ (b ++ c) := by
  cases a; cases b; cases c
  exact congrArg String.mk (List.append_assoc _ _ _)

/-- Strings with equal character data are equal. -/
theorem string_eq_of_data_eq {s t : String} (h : s.data = t.data) : s = t := by
  cases s; cases t
  exact congrArg String.mk h

/-- A `Read` event whose `tool_input` carries only `path` (no
`file_path`), as the Task tool emits for teammates operating on absolute
paths. -/
def c3Event : HookInput :=
  { session_id := some "S1", tool_name := some "Read",
    tool_input := some { path := some "/p/a.ts" } }

/-- C3 counterexample: an event with no `file_path` at all — which
therefore fails the claim's "non-empty `file_path`" filter — still saves
exactly one file META record, because the hook falls back to
`tool_input.path` (`toolInput.file_path || toolInput.path || ''`,
post-tool-use.js line 64). -/
theorem post_tool_use_filepath_fallback_counterexample :
    (c3Event.tool_input.getD {}).file_path = none ∧
    (postToolUseSaves 1700000000000 "abc123def456" none c3Event).filter
        (fun r => r.rtype == "META")
      = [{ ns := "proj/abc123def456/session/S1/files", title := "a.ts",
           summary := "read: /p/a.ts", rtype := "META",
           content := { filePath := some "/p/a.ts", action := some "read",
                        timestamp := some 1700000000000 },
           tags := ["file", "read", "S1"], updatedAt := 1700000000000 }] := by
  exact ⟨rfl, by decide⟩

/-- The namespace built by `crewNamespace` is the claim's
`proj/<hash>[/crew/<teammate>]/<base>` namespace when the project hash is
non-empty. -/
theorem crewNamespace_explicit (base : String) (crewId : Option CrewIdentity)
    (projectHash : String) (hp : projectHash ≠ "") :
    crewNamespace base crewId (some projectHash) =
      (match crewId with
       | some c => "proj/" ++ projectHash ++ "/crew/" ++ c.teammate_name ++ "/" ++ base
       | none => "proj/" ++ projectHash ++ "/" ++ base) := by
  unfold crewNamespace
  rcases crewId with _ | c
  · simp only [hp, if_false]
  · simp only [hp, if_false]
    show ((("proj/" ++ projectHash ++ "/") ++ "crew/") ++ c.teammate_name) ++ "/" ++ base =
      ((("proj/" ++ projectHash ++ "/crew/") ++ c.teammate_name) ++ "/") ++ base
    have h1 : ("proj/" ++ projectHash ++ "/") ++ "crew/" = "proj/" ++ projectHash ++ "/crew/" := by
      rw [string_append_assoc ("proj/" ++ projectHash) "/" "crew/"]
      exact congrArg (("proj/" ++ projectHash) ++ ·) (by decide)
    rw [h1]

/-- Modelled from the amended claim (C3): for a `Read`/`Write`/`Edit`
event whose resolved file path — `file_path`, defaulting to `path` when
`file_path` is empty or absent — is non-empty and contains neither
`node_modules` nor `.git/`, exactly one META record is saved at
`proj/<hash>[/crew/<teammate>]/session/<sid>/files` with title
`basename(path)`, summary `"<lowercased tool>: <path>"`, content
`{filePath, action, timestamp}` and tags `[file, <action>, <sid>]` plus
the teammate name in crew mode; otherwise no file record is saved. -/
def specFileRecords (now : Nat) (projectHash : String) (crewId : Option CrewIdentity)
    (input : HookInput) : List Record :=
  let ti := input.tool_input.getD {}
  let sid := jsOr input.session_id "default"
  let fp := jsOr ti.file_path (jsOr ti.path "")
  let tool := input.tool_name.getD ""
  if (tool = "Read" ∨ tool = "Write" ∨ tool = "Edit") ∧
     fp ≠ "" ∧ ¬ (hasSubstr fp "node_modules") ∧ ¬ (hasSubstr fp ".git/") then
    [{ ns := (match crewId with
        | some c => "proj/" ++ projectHash ++ "/crew/" ++ c.teammate_name ++ "/" ++
            ("session/" ++ sid ++ "/files")
        | none => "proj/" ++ projectHash ++ "/" ++ ("session/" ++ sid ++ "/files")),
       title := basename fp,
       summary := jsToLower tool ++ ": " ++ fp,
       rtype := "META",
       content := { filePath := some fp, action := some (jsToLower tool), timestamp := some now },
       tags := ["file", jsToLower tool, sid] ++
         (match crewId with | some c => [c.teammate_name] | none => []),
       updatedAt := now }]
  else []

/-- Any record the sub-agent branch saves is a SUMMARY, never a META. -/
theorem subagentRecord_rtype (now : Nat) (projectHash : String)
    (crewId : Option CrewIdentity) (sessionId : String) (ti : ToolInput) (r : Record)
    (h : subagentRecord now projectHash crewId sessionId ti = some r) :
    r.rtype = "SUMMARY" := by
  unfold subagentRecord at h
  repeat' split at h
  all_goals first
    | exact Option.noConfusion h
    | (cases h; rfl)

/-- Any record the discovery branch saves is a SUMMARY, never a META. -/
theorem discoveryRecord_rtype (now : Nat) (projectHash : String)
    (crewId : Option CrewIdentity) (ti : ToolInput) (toolResult : Option String) (r : Record)
    (h : discoveryRecord now projectHash crewId ti toolResult = some r) :
    r.rtype = "SUMMARY" := by
  unfold discoveryRecord at h
  repeat' split at h
  all_goals first
    | exact Option.noConfusion h
    | (cases h; rfl)

/-- The `Task` branch of post-tool-use saves no META record. -/
theorem task_branch_saves_no_meta (now : Nat) (projectHash : String)
    (crewId : Option CrewIdentity) (sessionId : String) (ti : ToolInput)
    (toolResult : Option String) :
    ((subagentRecord now projectHash crewId sessionId ti).toList ++
     (discoveryRecord now projectHash crewId ti toolResult).toList).filter
        (fun r => r.rtype == "META") = [] := by
  rw [List.filter_append]
  have e1 : (subagentRecord now projectHash crewId sessionId ti).toList.filter
      (fun r => r.rtype == "META") = [] := by
    cases hs : subagentRecord now projectHash crewId sessionId ti with
    | none => rfl
    | some r =>
        have := subagentRecord_rtype now projectHash crewId sessionId ti r hs
        simp [Option.toList, List.filter, this]
  have e2 : (discoveryRecord now projectHash crewId ti toolResult).toList.filter
      (fun r => r.rtype == "META") = [] := by
    cases hs : discoveryRecord now projectHash crewId ti toolResult with
    | none => rfl
    | some r =>
        have := discoveryRecord_rtype now projectHash crewId ti toolResult r hs
        simp [Option.toList, List.filter, this]
  rw [e1, e2]
  rfl

/-- The file-capture branch of post-tool-use, filtered to META records,
matches the claim's record exactly. -/
theorem file_capture_filter (now : Nat) (projectHash : String)
    (crewId : Option CrewIdentity) (tool sid fp : String) (hp : projectHash ≠ "") :
    (fileCaptureRecord now projectHash crewId tool sid fp).toList.filter
        (fun r => r.rtype == "META")
      = if (tool = "Read" ∨ tool = "Write" ∨ tool = "Edit") ∧
           fp ≠ "" ∧ ¬ (hasSubstr fp "node_modules") ∧ ¬ (hasSubstr fp ".git/") then
          [{ ns := (match crewId with
              | some c => "proj/" ++ projectHash ++ "/crew/" ++ c.teammate_name ++ "/" ++
                  ("session/" ++ sid ++ "/files")
              | none => "proj/" ++ projectHash ++ "/" ++ ("session/" ++ sid ++ "/files")),
             title := basename fp,
             summary := jsToLower tool ++ ": " ++ fp,
             rtype := "META",
             content := { filePath := some fp, action := some (jsToLower tool),
                          timestamp := some now },
             tags := ["file", jsToLower tool, sid] ++
               (match crewId with | some c => [c.teammate_name] | none => []),
             updatedAt := now }]
        else [] := by
  unfold fileCaptureRecord
  by_cases hc : ["Read", "Write", "Edit"].contains tool
  · have hor : tool = "Read" ∨ tool = "Write" ∨ tool = "Edit" := by
      simpa using hc
    rw [if_pos hc]
    by_cases hrest : fp ≠ "" ∧ ¬ (hasSubstr fp "node_modules") ∧ ¬ (hasSubstr fp ".git/")
    · rw [if_pos hrest, if_pos ⟨hor, hrest⟩]
      rw [crewNamespace_explicit _ _ _ hp]
      rfl
    · rw [if_neg hrest, if_neg (fun h => hrest h.2)]
      rfl
  · have hnor : ¬ (tool = "Read" ∨ tool = "Write" ∨ tool = "Edit") := by
      simpa using hc
    rw [if_neg hc, if_neg (fun h => hnor h.1)]
    rfl

/-- C3 (amended): the META records saved by one post-tool-use event are
exactly the spec's file record — one record for an acceptable resolved
file path (`file_path` defaulting to `path`), none otherwise; the `Task`
branch never contributes a META record. -/
theorem post_tool_use_file_capture (now : Nat) (projectHash : String)
    (crewId : Option CrewIdentity) (input : HookInput) (hp : projectHash ≠ "") :
    (postToolUseSaves now projectHash crewId input).filter (fun r => r.rtype == "META")
      = specFileRecords now projectHash crewId input := by
  show ((fileCaptureRecord now projectHash crewId (input.tool_name.getD "")
      (jsOr input.session_id "default")
      (jsOr (input.tool_input.getD {}).file_path (jsOr (input.tool_input.getD {}).path ""))).toList ++
    (if input.tool_name.getD "" = "Task" then
      (subagentRecord now projectHash crewId (jsOr input.session_id "default")
        (input.tool_input.getD {})).toList ++
      (discoveryRecord now projectHash crewId (input.tool_input.getD {})
        input.tool_result).toList
    else [])).filter (fun r => r.rtype == "META") = _
  rw [List.filter_append]
  have htask : (if input.tool_name.getD "" = "Task" then
      (subagentRecord now projectHash crewId (jsOr input.session_id "default")
        (input.tool_input.getD {})).toList ++
      (discoveryRecord now projectHash crewId (input.tool_input.getD {})
        input.tool_result).toList
    else []).filter (fun r => r.rtype == "META") = [] := by
    split
    · exact task_branch_saves_no_meta now projectHash crewId
        (jsOr input.session_id "default") (input.tool_input.getD {}) input.tool_result
    · rfl
  rw [htask, List.append_nil, file_capture_filter now projectHash crewId _ _ _ hp]
  rfl

/-- C3 witness: the amended theorem applied at a concrete crew-mode
`Edit` event. -/
theorem post_tool_use_file_capture_witness :
    ("abc123def456" : String) ≠ "" ∧
    (postToolUseSaves 5 "abc123def456" (some { teammate_name := "alice" })
        { session_id := some "S2", tool_name := some "Edit",
          tool_input := some { file_path := some "/w/src/m.ts" } }).filter
        (fun r => r.rtype == "META")
      = specFileRecords 5 "abc123def456" (some { teammate_name := "alice" })
        { session_id := some "S2", tool_name := some "Edit",
          tool_input := some { file_path := some "/w/src/m.ts" } } :=
  ⟨by decide,
   post_tool_use_file_capture 5 "abc123def456" (some { teammate_name := "alice" })
     { session_id := some "S2", tool_name := some "Edit",
       tool_input := some { file_path := some "/w/src/m.ts" } } (by decide)⟩

/-! ### Session-start continuity injection (C2) -/

/-- A context part is a continuity part when it opens with one of the
three continuity headings. -/
def isContinuityPart (p : String) : Bool :=
  strStartsWith p "## Session Handoff" || strStartsWith p "## Branch Context (" ||
    strStartsWith p "## Last Session"

/-- A string whose data extends the pattern's data starts with the
pattern. -/
theorem strStartsWith_of_data (s p : String) (R : List Char) (h : s.data = p.data ++ R) :
    strStartsWith s p = true := by
  unfold strStartsWith
  rw [h]
  exact List.isPrefixOf_iff_prefix.mpr (List.prefix_append _ _)

/-- A string does not start with a pattern that already disagrees on the
overlap with its literal head. -/
theorem strStartsWith_false_of_take_ne (s t p : String)
    (h : p.data.take s.data.length ≠ s.data.take p.data.length) :
    strStartsWith (s ++ t) p = false := by
  unfold strStartsWith
  rw [string_data_append]
  cases hb : p.data.isPrefixOf (s.data ++ t.data) with
  | false => rfl
  | true =>
      exfalso
      apply h
      have hpre : p.data <+: s.data ++ t.data := List.isPrefixOf_iff_prefix.mp hb
      have heq : p.data = (s.data ++ t.data).take p.data.length :=
        List.prefix_iff_eq_take.mp hpre
      have h3 : s.data.take (min s.data.length p.data.length) = s.data.take p.data.length := by
        rcases le_total s.data.length p.data.length with hle | hle
        · rw [min_eq_left hle, List.take_length, List.take_of_length_le hle]
        · rw [min_eq_right hle]
      calc p.data.take s.data.length
          = ((s.data ++ t.data).take p.data.length).take s.data.length := by rw [← heq]
        _ = (s.data ++ t.data).take (min s.data.length p.data.length) := by
              rw [List.take_take]
        _ = s.data.take (min s.data.length p.data.length) := by
              rw [List.take_append_of_le_length (min_le_left _ _)]
        _ = s.data.take p.data.length := h3

/-- A part whose literal head disagrees with all three continuity
headings is not a continuity part. -/
theorem isContinuityPart_false_of (s t : String)
    (h1 : "## Session Handoff".data.take s.data.length ≠
      s.data.take "## Session Handoff".data.length)
    (h2 : "## Branch Context (".data.take s.data.length ≠
      s.data.take "## Branch Context (".data.length)
    (h3 : "## Last Session".data.take s.data.length ≠
      s.data.take "## Last Session".data.length) :
    isContinuityPart (s ++ t) = false := by
  unfold isContinuityPart
  rw [strStartsWith_false_of_take_ne s t _ h1, strStartsWith_false_of_take_ne s t _ h2,
    strStartsWith_false_of_take_ne s t _ h3]
  rfl

/-- First element with the strictly largest key, scanning left to
right (ties keep the earlier element).  This is the spec-side account of
"the most recent" under a stable descending sort. -/
def firstMaxBy (f : Record → Nat) (l : List Record) : Option Record :=
  l.foldl (fun acc r =>
    match acc with
    | none => some r
    | some m => if f m < f r then some r else acc) none

/-- The head after a stable descending insertion. -/
theorem head_insertDescBy (f : Record → Nat) (acc : List Record) (r : Record) :
    (insertDescBy f acc r).head? =
      match acc.head? with
      | none => some r
      | some m => if f m < f r then some r else some m := by
  cases acc with
  | nil => rfl
  | cons x xs =>
      unfold insertDescBy
      by_cases h : f x < f r
      · simp [h]
      · simp [h]

/-- The head of the stable descending sort is the first maximum. -/
theorem sortDescBy_head (f : Record → Nat) (l : List Record) :
    (sortDescBy f l).head? = firstMaxBy f l := by
  unfold sortDescBy firstMaxBy
  suffices h : ∀ (l : List Record) (acc : List Record),
      (l.foldl (insertDescBy f) acc).head? =
        l.foldl (fun acc r =>
          match acc with
          | none => some r
          | some m => if f m < f r then some r else acc) acc.head? by
    exact h l []
  intro l
  induction l with
  | nil => intro acc; rfl
  | cons r rs ih =>
      intro acc
      rw [List.foldl_cons, List.foldl_cons, ih, head_insertDescBy]
      cases acc.head? with
      | none => rfl
      | some m => rfl

/-- The branch loop finds the first branch-matching session. -/
theorem branchScan_fst (b : String) (l : List Record) :
    (branchScan b l).1 = l.find? (fun r => r.content.branch == some b) := by
  induction l with
  | nil => rfl
  | cons r rs ih =>
      unfold branchScan
      by_cases h : r.content.branch == some b
      · simp [h, List.find?]
      · simp [h, List.find?, ih]

/-- When no session matches the branch, the loop's fallback is the most
recent session. -/
theorem branchScan_snd (b : String) (l : List Record)
    (h : (branchScan b l).1 = none) : (branchScan b l).2 = l.head? := by
  cases l with
  | nil => rfl
  | cons r rs =>
      unfold branchScan at h ⊢
      by_cases hr : r.content.branch == some b
      · simp [hr] at h
      · simp [hr]

/-- The handoff heading part is a continuity part. -/
theorem continuity_handoff_true (sfx sum : String) :
    isContinuityPart ("## Session Handoff" ++ sfx ++ "\n\n" ++ sum) = true := by
  have h : strStartsWith ("## Session Handoff" ++ sfx ++ "\n\n" ++ sum)
      "## Session Handoff" = true := by
    apply strStartsWith_of_data _ _ (sfx.data ++ ("\n\n".data ++ sum.data))
    simp [string_data_append, List.append_assoc]
  unfold isContinuityPart
  rw [h]
  rfl

/-- The branch-context heading part is a continuity part. -/
theorem continuity_branch_true (b line : String) :
    isContinuityPart ("## Branch Context (" ++ b ++ ")" ++ "\n" ++ line) = true := by
  have h : strStartsWith ("## Branch Context (" ++ b ++ ")" ++ "\n" ++ line)
      "## Branch Context (" = true := by
    apply strStartsWith_of_data _ _ (b.data ++ (")".data ++ ("\n".data ++ line.data)))
    simp [string_data_append, List.append_assoc]
  unfold isContinuityPart
  rw [h]
  simp

/-- The last-session heading part is a continuity part. -/
theorem continuity_last_true (line : String) :
    isContinuityPart ("## Last Session" ++ "\n" ++ line) = true := by
  have h : strStartsWith ("## Last Session" ++ "\n" ++ line) "## Last Session" = true := by
    apply strStartsWith_of_data _ _ ("\n".data ++ line.data)
    simp [string_data_append, List.append_assoc]
  unfold isContinuityPart
  rw [h]
  simp

/-- Modelled from the amended claim (C2), fallback half: when the current
branch is known and one of the 10 most recent prior session records
stores `content.branch` equal to it, the most recent such session is
injected as `## Branch Context (<branch>)`; when none of those 10
matches, or the branch is unknown, the most recent prior session is
injected as `## Last Session`; with no prior session nothing is
injected. -/
def specFallbackParts (store : List Record) (sessionNs : String)
    (currentBranch : Option String) : List String :=
  match currentBranch with
  | some b =>
      match ((store.filter (fun r => r.ns == sessionNs)).take 10).find?
          (fun r => r.content.branch == some b) with
      | some s => ["## Branch Context (" ++ b ++ ")" ++ "\n" ++ sessionSummaryLine s]
      | none =>
          match ((store.filter (fun r => r.ns == sessionNs)).take 10).head? with
          | some s => ["## Last Session" ++ "\n" ++ sessionSummaryLine s]
          | none => []
  | none =>
      match ((store.filter (fun r => r.ns == sessionNs)).take 10).head? with
      | some s => ["## Last Session" ++ "\n" ++ sessionSummaryLine s]
      | none => []

/-- Modelled from the amended claim (C2): handoff retrieval is by text
search and sorts by `content.generatedAt` — if a record whose title or
summary contains "handoff" exists in the matching namespace (the
teammate's crew session namespaces in crew mode, non-crew namespaces
otherwise) and the first such record with the largest `generatedAt` has a
non-empty summary, that summary is injected verbatim under
`## Session Handoff`; otherwise the prior-session fallback of
`specFallbackParts` applies. -/
def specContinuityOn (store : List Record) (crewId : Option CrewIdentity)
    (currentBranch : Option String) (projectHash : String) : List String :=
  match firstMaxBy (fun r => r.content.generatedAt)
      (store.filter (fun r =>
        (hasSubstr r.title "handoff" || hasSubstr r.summary "handoff") &&
        (match crewId with
         | some c => hasSubstr r.ns ("crew/" ++ c.teammate_name ++ "/session")
         | none => !(hasSubstr r.ns "crew/")))) with
  | some h =>
      if h.summary = "" then
        specFallbackParts store
          (match crewId with
           | some c => "proj/" ++ projectHash ++ "/crew/" ++ c.teammate_name ++ "/session"
           | none => "proj/" ++ projectHash ++ "/session") currentBranch
      else ["## Session Handoff" ++ teammateSuffix crewId ++ "\n\n" ++ h.summary]
  | none =>
      specFallbackParts store
        (match crewId with
         | some c => "proj/" ++ projectHash ++ "/crew/" ++ c.teammate_name ++ "/session"
         | none => "proj/" ++ projectHash ++ "/session") currentBranch

/-- The claim's continuity rule over the raw store: the hook prunes
first, then selects. -/
def continuitySpecification (now : Nat) (store0 : List Record) (crewId : Option CrewIdentity)
    (currentBranch : Option String) (projectHash : String) : List String :=
  specContinuityOn (autoPrune now store0) crewId currentBranch projectHash

/-- The handoff pick of the hook equals the spec's first-maximum over a
single filter. -/
theorem pickHandoff_eq (store : List Record) (crewId : Option CrewIdentity) :
    pickHandoff store crewId = firstMaxBy (fun r => r.content.generatedAt)
      (store.filter (fun r =>
        (hasSubstr r.title "handoff" || hasSubstr r.summary "handoff") &&
        (match crewId with
         | some c => hasSubstr r.ns ("crew/" ++ c.teammate_name ++ "/session")
         | none => !(hasSubstr r.ns "crew/")))) := by
  rcases crewId with _ | c
  · unfold pickHandoff relevantHandoffs searchStore
    rw [sortDescBy_head]
    show firstMaxBy (fun (r : Record) => r.content.generatedAt)
        ((store.filter (fun (r : Record) =>
          hasSubstr r.title "handoff" || hasSubstr r.summary "handoff")).filter
            (fun (h : Record) => !(hasSubstr h.ns "crew/")))
      = firstMaxBy (fun (r : Record) => r.content.generatedAt)
        (store.filter (fun (r : Record) =>
          (hasSubstr r.title "handoff" || hasSubstr r.summary "handoff") &&
            !(hasSubstr r.ns "crew/")))
    congr 1
    rw [List.filter_filter]
    exact List.filter_congr (fun a _ => Bool.and_comm _ _)
  · unfold pickHandoff relevantHandoffs searchStore
    rw [sortDescBy_head]
    show firstMaxBy (fun (r : Record) => r.content.generatedAt)
        ((store.filter (fun (r : Record) =>
          hasSubstr r.title "handoff" || hasSubstr r.summary "handoff")).filter
            (fun (h : Record) => hasSubstr h.ns ("crew/" ++ c.teammate_name ++ "/session")))
      = firstMaxBy (fun (r : Record) => r.content.generatedAt)
        (store.filter (fun (r : Record) =>
          (hasSubstr r.title "handoff" || hasSubstr r.summary "handoff") &&
            hasSubstr r.ns ("crew/" ++ c.teammate_name ++ "/session")))
    congr 1
    rw [List.filter_filter]
    exact List.filter_congr (fun a _ => Bool.and_comm _ _)

/-- The namespace the hook lists sessions from, written out. -/
theorem sessionNs_explicit (crewId : Option CrewIdentity) (h : String) (hp : h ≠ "") :
    crewNamespace "session" crewId (some h) =
      (match crewId with
       | some c => "proj/" ++ h ++ "/crew/" ++ c.teammate_name ++ "/session"
       | none => "proj/" ++ h ++ "/session") := by
  rw [crewNamespace_explicit _ _ _ hp]
  rcases crewId with _ | c
  · show ("proj/" ++ h ++ "/") ++ "session" = ("proj/" ++ h) ++ "/session"
    rw [string_append_assoc ("proj/" ++ h) "/" "session"]
    exact congrArg (("proj/" ++ h) ++ ·) (by decide)
  · show ("proj/" ++ h ++ "/crew/" ++ c.teammate_name ++ "/") ++ "session" =
      ("proj/" ++ h ++ "/crew/" ++ c.teammate_name) ++ "/session"
    rw [string_append_assoc ("proj/" ++ h ++ "/crew/" ++ c.teammate_name) "/" "session"]
    exact congrArg (("proj/" ++ h ++ "/crew/" ++ c.teammate_name) ++ ·) (by decide)

/-- A continuity part passes the continuity filter. -/
theorem filter_singleton_keep (s : String) (h : isContinuityPart s = true) :
    List.filter isContinuityPart [s] = [s] := by
  simp [List.filter_cons, h]

/-- The prior-session fallback, filtered to continuity parts, is the
spec's fallback. -/
theorem fallback_filter_eq (store : List Record) (ns : String) (cb : Option String) :
    (sessionFallbackPart store ns cb).filter isContinuityPart
      = specFallbackParts store ns cb := by
  cases cb with
  | none =>
      show (match ((store.filter (fun (r : Record) => r.ns == ns)).take 10).head? with
          | some s => ["## Last Session" ++ "\n" ++ sessionSummaryLine s]
          | none => ([] : List String)).filter isContinuityPart
        = match ((store.filter (fun (r : Record) => r.ns == ns)).take 10).head? with
          | some s => ["## Last Session" ++ "\n" ++ sessionSummaryLine s]
          | none => []
      rcases hh : ((store.filter (fun (r : Record) => r.ns == ns)).take 10).head? with _ | s
      · rfl
      · exact filter_singleton_keep _ (continuity_last_true _)
  | some b =>
      show (match (branchScan b ((store.filter (fun (r : Record) => r.ns == ns)).take 10)).1 <|>
            (branchScan b ((store.filter (fun (r : Record) => r.ns == ns)).take 10)).2 with
          | some s =>
              [(if (branchScan b ((store.filter (fun (r : Record) => r.ns == ns)).take 10)).1.isSome then
                  "## Branch Context (" ++ b ++ ")"
                else "## Last Session") ++ "\n" ++ sessionSummaryLine s]
          | none => ([] : List String)).filter isContinuityPart
        = match ((store.filter (fun (r : Record) => r.ns == ns)).take 10).find?
            (fun (r : Record) => r.content.branch == some b) with
          | some s => ["## Branch Context (" ++ b ++ ")" ++ "\n" ++ sessionSummaryLine s]
          | none =>
              match ((store.filter (fun (r : Record) => r.ns == ns)).take 10).head? with
              | some s => ["## Last Session" ++ "\n" ++ sessionSummaryLine s]
              | none => []
      have hfst := branchScan_fst b ((store.filter (fun (r : Record) => r.ns == ns)).take 10)
      rcases hf : ((store.filter (fun (r : Record) => r.ns == ns)).take 10).find?
          (fun (r : Record) => r.content.branch == some b) with _ | s
      · have h1 : (branchScan b ((store.filter (fun (r : Record) => r.ns == ns)).take 10)).1 = none :=
          hfst.trans hf
        have h2 := branchScan_snd b _ h1
        rw [h1, h2]
        rcases hh : ((store.filter (fun (r : Record) => r.ns == ns)).take 10).head? with _ | s
        · rfl
        · exact filter_singleton_keep _ (continuity_last_true _)
      · have h1 : (branchScan b ((store.filter (fun (r : Record) => r.ns == ns)).take 10)).1 = some s :=
          hfst.trans hf
        rw [h1]
        exact filter_singleton_keep _ (continuity_branch_true _ _)

/-- A non-continuity part passes nothing through the continuity
filter. -/
theorem filter_singleton_false (s : String) (h : isContinuityPart s = false) :
    List.filter isContinuityPart [s] = [] := by
  simp [List.filter_cons, h]

/-- A joined block whose first line opens with a non-continuity literal
is not a continuity part. -/
theorem continuity_false_jsJoin (lit rest : String) (xs : List String)
    (h1 : "## Session Handoff".data.take lit.data.length ≠
      lit.data.take "## Session Handoff".data.length)
    (h2 : "## Branch Context (".data.take lit.data.length ≠
      lit.data.take "## Branch Context (".data.length)
    (h3 : "## Last Session".data.take lit.data.length ≠
      lit.data.take "## Last Session".data.length) :
    isContinuityPart (jsJoin "\n" ((lit ++ rest) :: xs)) = false := by
  cases xs with
  | nil =>
      show isContinuityPart (lit ++ rest) = false
      exact isContinuityPart_false_of _ _ h1 h2 h3
  | cons y ys =>
      show isContinuityPart (lit ++ rest ++ "\n" ++ jsJoin "\n" (y :: ys)) = false
      rw [string_append_assoc, string_append_assoc]
      exact isContinuityPart_false_of _ _ h1 h2 h3

/-- The pruning notice is not a continuity part. -/
theorem pruneNotice_no_continuity (now : Nat) (store0 : List Record) :
    (pruneNoticeParts now store0).filter isContinuityPart = [] := by
  unfold pruneNoticeParts
  split
  · apply filter_singleton_false
    rw [string_append_assoc]
    exact isContinuityPart_false_of _ _ (by decide) (by decide) (by decide)
  · rfl

/-- The top-discoveries section is not a continuity part. -/
theorem discoveries_no_continuity (store : List Record) (crewId : Option CrewIdentity)
    (projectHash : String) :
    (discoveriesPart store crewId projectHash).filter isContinuityPart = [] := by
  unfold discoveriesPart
  split
  · rfl
  · exact filter_singleton_false _
      (isContinuityPart_false_of "## Top Discoveries\n" _
        (by decide) (by decide) (by decide))

/-- The recent-files section is not a continuity part. -/
theorem recentFiles_no_continuity (store : List Record) :
    (recentFilesPart store).filter isContinuityPart = [] := by
  unfold recentFilesPart
  split
  · rfl
  · exact filter_singleton_false _
      (isContinuityPart_false_of "## Recent Files\n" _
        (by decide) (by decide) (by decide))

/-- The team-activity section is not a continuity part. -/
theorem teamActivity_no_continuity (store : List Record) (crewId : Option CrewIdentity) :
    (teamActivityPart store crewId).filter isContinuityPart = [] := by
  rcases crewId with _ | c
  · rfl
  · simp only [teamActivityPart]
    split
    · rfl
    · exact filter_singleton_false _
        (isContinuityPart_false_of "## Team Activity\n" _
          (by decide) (by decide) (by decide))

/-- The crew-config section is not a continuity part. -/
theorem crewConfig_no_continuity (now : Nat) (fs : CrewFsView) :
    ((crewConfigPart now fs).toList).filter isContinuityPart = [] := by
  obtain ⟨cfgO, wt, ps, fl⟩ := fs
  rcases cfgO with _ | cfg
  · rfl
  · obtain ⟨profilesO, defaultO, teamO, saho⟩ := cfg
    rcases profilesO with _ | profs
    · rcases teamO with _ | team
      · rfl
      · simp only [crewConfigPart]
        exact filter_singleton_false _
          (continuity_false_jsJoin "## Team: " team.name _
            (by decide) (by decide) (by decide))
    · simp only [crewConfigPart]
      exact filter_singleton_false _
        (continuity_false_jsJoin "## Crew Profiles: " _ _
          (by decide) (by decide) (by decide))

/-- Case analysis bridging the hook's handoff-or-fallback match to the
spec's, for any value of the pick. -/
theorem continuity_match_eq (o : Option Record) (store : List Record)
    (crewId : Option CrewIdentity) (cb : Option String) (projectHash : String)
    (hp : projectHash ≠ "") :
    (match o with
     | some h =>
         if h.summary = "" then
           sessionFallbackPart store (crewNamespace "session" crewId (some projectHash)) cb
         else ["## Session Handoff" ++ teammateSuffix crewId ++ "\n\n" ++ h.summary]
     | none =>
         sessionFallbackPart store (crewNamespace "session" crewId (some projectHash)) cb
      ).filter isContinuityPart
    = match o with
      | some h =>
          if h.summary = "" then
            specFallbackParts store
              (match crewId with
               | some c => "proj/" ++ projectHash ++ "/crew/" ++ c.teammate_name ++ "/session"
               | none => "proj/" ++ projectHash ++ "/session") cb
          else ["## Session Handoff" ++ teammateSuffix crewId ++ "\n\n" ++ h.summary]
      | none =>
          specFallbackParts store
            (match crewId with
             | some c => "proj/" ++ projectHash ++ "/crew/" ++ c.teammate_name ++ "/session"
             | none => "proj/" ++ projectHash ++ "/session") cb := by
  cases o with
  | none =>
      rw [sessionNs_explicit crewId projectHash hp]
      exact fallback_filter_eq store _ cb
  | some h =>
      simp only []
      by_cases hsum : h.summary = ""
      · rw [if_pos hsum, if_pos hsum, sessionNs_explicit crewId projectHash hp]
        exact fallback_filter_eq store _ cb
      · rw [if_neg hsum, if_neg hsum]
        exact filter_singleton_keep _ (continuity_handoff_true _ _)

/-- The continuity part of the hook, filtered, equals the spec's
continuity selection over the same (pruned) store. -/
theorem continuity_core (store : List Record) (crewId : Option CrewIdentity)
    (cb : Option String) (projectHash : String) (hp : projectHash ≠ "") :
    (continuityParts store crewId cb
        (crewNamespace "session" crewId (some projectHash))).filter isContinuityPart
      = specContinuityOn store crewId cb projectHash := by
  unfold continuityParts specContinuityOn
  rw [pickHandoff_eq]
  exact continuity_match_eq _ store crewId cb projectHash hp

/-- C2 (amended): for every store, crew identity, current branch and
crew-config filesystem state, the continuity parts of session-start's
`additionalContext` are exactly the spec's selection: the text-searched,
namespace-filtered handoff with the largest `content.generatedAt` when
one with a non-empty summary exists (under `## Session Handoff`, and then
no `## Last Session` or `## Branch Context` part appears); otherwise the
most recent of the 10 newest prior sessions whose stored `content.branch`
equals the known current branch (as `## Branch Context (<branch>)`), and
otherwise the most recent prior session (as `## Last Session`).  No other
section of the context ever contributes a continuity part. -/
theorem session_start_continuity (now : Nat) (store0 : List Record)
    (crewId : Option CrewIdentity) (currentBranch : Option String) (projectHash : String)
    (fs : CrewFsView) (hp : projectHash ≠ "") :
    (sessionStartParts now store0 crewId currentBranch projectHash fs).filter isContinuityPart
      = continuitySpecification now store0 crewId currentBranch projectHash := by
  unfold sessionStartParts continuitySpecification
  simp only [List.filter_append]
  rw [pruneNotice_no_continuity, discoveries_no_continuity, recentFiles_no_continuity,
    teamActivity_no_continuity, crewConfig_no_continuity]
  simp only [List.append_nil, List.nil_append]
  exact continuity_core (autoPrune now store0) crewId currentBranch projectHash hp

/-- A store holding one record tagged `handoff`, in a non-crew session
handoff namespace, whose title and summary do not contain the word
"handoff". -/
def c2TaggedHandoff : Record :=
  { ns := "proj/abc123def456/session/S1/handoff", title := "continuity notes",
    summary := "Resume by finishing the parser refactor.",
    rtype := "SUMMARY",
    content := { generatedAt := 5 },
    tags := ["handoff", "pre-compact", "S1"], updatedAt := 1000 }

/-- C2 counterexample: a record tagged `handoff` exists in the matching
(non-crew) namespace, yet session-start injects no `## Session Handoff`
at all — the hook retrieves handoffs with `blink.search('handoff')`, a
text search over title and summary, not by tag (session-start.js line
213), so this record is never found and the additionalContext is
empty. -/
theorem session_start_handoff_counterexample :
    "handoff" ∈ c2TaggedHandoff.tags ∧
    hasSubstr c2TaggedHandoff.ns "crew/" = false ∧
    c2TaggedHandoff.summary ≠ "" ∧
    sessionStartParts 1000 [c2TaggedHandoff] none none "abc123def456" {} = [] ∧
    sessionStartContext 1000 [c2TaggedHandoff] none none "abc123def456" {} false = "" := by
  refine ⟨?_, ?_, ?_, ?_, ?_⟩ <;> decide

/-- C2 witness: the amended theorem applied at a concrete store and
branch. -/
theorem session_start_continuity_witness :
    ("abc123def456" : String) ≠ "" ∧
    (sessionStartParts 1000 [c2TaggedHandoff] (some { teammate_name := "alice" })
        (some "main") "abc123def456" {}).filter isContinuityPart
      = continuitySpecification 1000 [c2TaggedHandoff] (some { teammate_name := "alice" })
        (some "main") "abc123def456" :=
  ⟨by decide,
   session_start_continuity 1000 [c2TaggedHandoff] (some { teammate_name := "alice" })
     (some "main") "abc123def456" {} (by decide)⟩

/-! ### Lead prompt generator (src/crew/lib/prompt-generator.js, C9)

`generateLeadPrompt(config, teamState, worktreePaths)` is declared with
three parameters; `crewStart` (src/bin/cck.js line 484) calls it with five
arguments — `(team, teamState, worktreePaths, configHash, staleAfterMs)` —
and JavaScript silently discards the extra two.  The embedding keeps the
call-site arity with the two unused trailing parameters, and adds the
explicit inputs the body actually reads: the clock (`Date.now()` in
`generateResumePrompt` and `isStale`) and the working directory.
-/

/-- A teammate as the prompt generator reads it (resolved config
fields). -/
structure PGTeammate where
  name : String
  branch : String
  model : Option String := none
  mode : Option String := none
  subagent_type : Option String := none
  focus : Option String := none
deriving Repr, DecidableEq

/-- A team object (`config.team`). -/
structure PGTeam where
  name : String
  teammates : List PGTeammate
deriving Repr, DecidableEq

/-- The generator's first argument.  `crewStart` passes the resolved team
itself, so `config.team` is `undefined` there — modelled as `none`. -/
structure PGConfig where
  team : Option PGTeam := none
deriving Repr, DecidableEq

/-- The `worktreePaths` map: the `_projectRoot` entry plus one path per
teammate name (the kit never names a teammate `_projectRoot`, so the two
parts are modelled separately). -/
structure WorktreePaths where
  projectRootEntry : Option String := none
  paths : List (String × String) := []
deriving Repr, DecidableEq

/-- Embedding of `isStale` (src/crew/lib/team-state-manager.js): an
absent teammate or `last_active` is stale; otherwise compare the age
against the threshold (the generator always uses the 4-hour default). -/
def isStaleTm (now : Int) (t : Option StateTeammate) (maxAgeMs : Int) : Bool :=
  match t with
  | none => true
  | some tm =>
      match tm.last_active with
      | none => true
      | some la => maxAgeMs < now - (la : Int)

/-- Embedding of `isConfigChanged` (team-state-manager.js). -/
def isConfigChanged (currentHash stateHash : String) : Bool := currentHash != stateHash

/-- Fixed-substring global replace with a step counter (JS
`replace(/pat/g, rep)` for a literal pattern; `s.length` steps always
suffice since every step consumes at least one character). -/
def replaceFuel (pat rep : List Char) : Nat → List Char → List Char
  | 0, l => l
  | _ + 1, [] => []
  | n + 1, c :: rest =>
      if pat.isPrefixOf (c :: rest) ∧ pat ≠ [] then
        rep ++ replaceFuel pat rep n ((c :: rest).drop pat.length)
      else c :: replaceFuel pat rep n rest

/-- JS `String.prototype.replace` with a global literal pattern. -/
def jsReplaceAll (s pat rep : String) : String :=
  String.mk (replaceFuel pat.data rep.data s.data.length s.data)

/-- JS `String.prototype.split` with a one-character separator, charwise
(`""` splits to `[""]`, like in JS). -/
def splitOnChar (c : Char) : List Char → List (List Char)
  | [] => [[]]
  | x :: xs =>
      match splitOnChar c xs, decide (x = c) with
      | r, true => [] :: r
      | [], false => [[x]]
      | y :: ys, false => (x :: y) :: ys

/-- Embedding of `indent` (prompt-generator.js): pad every line of the
split text. -/
def pgIndent (text : String) (spaces : Nat) : String :=
  jsJoin "\n" (((splitOnChar '\n' text.data).map String.mk).map
    (fun line => String.mk (List.replicate spaces ' ') ++ line))

/-- JS `Math.round((now - then) / 3600000)` over signed times. -/
def roundHoursInt (now la : Int) : Int := (2 * (now - la) + 3600000).fdiv 7200000

/-- Embedding of `generateTeammatePrompt` (prompt-generator.js lines
136-172). -/
def generateTeammatePrompt (mate : PGTeammate) (worktreePath projectRoot : String) : String :=
  jsJoin "\n"
    ["# Identity",
     "You are \"" ++ mate.name ++ "\" — a teammate working on branch \"" ++ mate.branch ++ "\".",
     "",
     "# Working Directory",
     "Your worktree is at: " ++ worktreePath,
     "",
     "# Path Rules",
     "| Action | Correct | Wrong |",
     "|--------|---------|-------|",
     "| Read/Write files | " ++ worktreePath ++ "/... | " ++ projectRoot ++ "/... |",
     "| Run commands | cd " ++ worktreePath ++ " first | Commands in " ++ projectRoot ++ " |",
     "| Create new files | " ++ worktreePath ++ "/src/... | " ++ projectRoot ++ "/src/... |",
     "",
     "CRITICAL: ALL file operations MUST use paths starting with " ++ worktreePath ++ "/",
     "NEVER use " ++ projectRoot ++ "/ — that is the lead\x27s project root.",
     "",
     "# Focus",
     jsReplaceAll (jsReplaceAll (jsReplaceAll (mate.focus.getD "")
       "{WORKTREE_PATH}" worktreePath) "{PROJECT_ROOT}" projectRoot)
       "{TEAMMATE_NAME}" mate.name,
     "",
     "# Task Workflow",
     "1. Read your assigned task via TaskGet",
     "2. Mark it in_progress via TaskUpdate",
     "3. Do the work in your worktree",
     "4. When done, mark the task completed via TaskUpdate",
     "5. Check TaskList for more pending tasks",
     "6. Send a message to the team lead when you finish all tasks"]

/-- Embedding of `generateResumePrompt` (prompt-generator.js lines
37-84). -/
def generateResumePrompt (now : Int) (team : PGTeam) (ts : TeamState)
    (wt : WorktreePaths) (projectRoot : String) : String :=
  jsJoin "\n"
    (["## Team Resume: " ++ team.name,
      "",
      "Previous teammates were active " ++
        (if ts.updated_at = 0 then "?" else toString (roundHoursInt now (ts.updated_at : Int))) ++
        " hours ago. Attempt resume for each.",
      "",
      "### Step 1: Create Team",
      "Use TeamCreate with team_name=\"" ++ team.name ++ "\"",
      "",
      "### Step 2: Resume Teammates",
      "For each teammate below, TRY to resume with their saved agent_id.",
      "If resume fails (agent expired), spawn fresh with the full prompt.",
      ""] ++
     team.teammates.flatMap (fun mate =>
       ["#### " ++ mate.name,
        "- Agent ID: " ++ jsOr ((alookup ts.teammates mate.name).bind (fun s => s.agent_id)) "none" ++
          (if ((alookup ts.teammates mate.name).isNone ||
               isStaleTm now (alookup ts.teammates mate.name) 14400000) then
            " (STALE — spawn fresh)" else ""),
        "- Branch: " ++ mate.branch,
        "- Worktree: " ++ jsOr (wtLookup wt.paths mate.name) "unknown"] ++
       (if ((alookup ts.teammates mate.name).isNone ||
            isStaleTm now (alookup ts.teammates mate.name) 14400000) ||
           jsOr ((alookup ts.teammates mate.name).bind (fun s => s.agent_id)) "none" = "none" then
         ["- Action: Spawn fresh with prompt below",
          "",
          "```",
          generateTeammatePrompt mate (jsOr (wtLookup wt.paths mate.name) "unknown") projectRoot,
          "```"]
        else
         ["- Action: Resume with agent_id=\"" ++
            jsOr ((alookup ts.teammates mate.name).bind (fun s => s.agent_id)) "none" ++ "\"",
          "- Resume prompt: \"Continue working on your tasks. Check TaskList for pending work.\""]) ++
       [""]) ++
     ["### Step 3: Assign Tasks",
      "After all teammates are running, create tasks and assign them."])

/-- Embedding of `generateFreshPrompt` (prompt-generator.js lines
89-131). -/
def generateFreshPrompt (team : PGTeam) (wt : WorktreePaths) (projectRoot : String) : String :=
  jsJoin "\n"
    (["## Team Launch: " ++ team.name,
      "",
      "### Step 1: Create Team",
      "Use TeamCreate with team_name=\"" ++ team.name ++ "\"",
      "",
      "### Step 2: Create Tasks",
      "Create one task per teammate describing their focus area:",
      ""] ++
     team.teammates.map (fun mate =>
       "- Task for **" ++ mate.name ++ "**: " ++
         jsOr mate.focus "See teammate prompt for details") ++
     ["",
      "### Step 3: Spawn Teammates",
      "Spawn all teammates in parallel using the Task tool with run_in_background=true.",
      ""] ++
     team.teammates.flatMap (fun mate =>
       ["#### " ++ mate.name,
        "```",
        "Task tool parameters:",
        "  name: \"" ++ mate.name ++ "\"",
        "  team_name: \"" ++ team.name ++ "\"",
        "  subagent_type: \"" ++ jsOr mate.subagent_type "general-purpose" ++ "\"",
        "  mode: \"" ++ jsOr mate.mode "bypassPermissions" ++ "\"",
        "  model: \"" ++ jsOr mate.model "sonnet" ++ "\"",
        "  run_in_background: true",
        "  prompt: |",
        pgIndent (generateTeammatePrompt mate (jsOr (wtLookup wt.paths mate.name) "unknown")
          projectRoot) 4,
        "```",
        ""]) ++
     ["### Step 4: Assign Tasks",
      "Use TaskUpdate to assign each task to the corresponding teammate by name."])

/-- Embedding of `generateLeadPrompt` at the `crewStart` call site: the
declared parameters are `(config, teamState, worktreePaths)`; the
`configHash` and `staleAfterMs` arguments that `crewStart` passes have no
matching parameters and are discarded.  The result is `none` when
`config.team` is `undefined` (the body would throw a TypeError reading
`team.name`). -/
def generateLeadPrompt (now : Int) (cwd : String) (config : PGConfig)
    (teamState : Option TeamState) (worktreePaths : WorktreePaths)
    (_configHash : String) (_staleAfterMs : Nat) : Option String :=
  let projectRoot := jsOr worktreePaths.projectRootEntry cwd
  let canResume :=
    match teamState with
    | none => false
    | some ts =>
        !(isConfigChanged ts.config_hash ts.config_hash) &&
        ts.teammates.any (fun nt => !(isStaleTm now (some nt.2) 14400000))
  match config.team with
  | none => none
  | some team =>
      match teamState, canResume with
      | some ts, true => some (generateResumePrompt now team ts worktreePaths projectRoot)
      | _, _ => some (generateFreshPrompt team worktreePaths projectRoot)

/-- A one-teammate team used to exercise the prompt generator. -/
def c9Mate : PGTeammate := { name := "alice", branch := "feat/a" }

/-- Team wrapper for [c9Mate]. -/
def c9Team : PGTeam := { name := "alpha", teammates := [c9Mate] }

/-- A saved team state whose single teammate was last active at time
1000000 with a live agent id. -/
def c9State : TeamState :=
  { status := "active", config_hash := "h1", updated_at := 1000000,
    teammates := [("alice",
      { status := "active", branch := some "feat/a",
        worktree_path := some "/repo-feat--a",
        agent_id := some "agent-1", last_active := some 1000000 })] }

/-- Worktree map for the C9 scenario. -/
def c9Wt : WorktreePaths :=
  { projectRootEntry := some "/repo", paths := [("alice", "/repo-feat--a")] }

/-- C9 counterexample: the five claimed inputs (profile/team, TeamState,
worktree map, config hash, staleness threshold) are held fixed, yet the
generated prompt differs between two invocations, because `isStale` and
`generateResumePrompt` read `Date.now()`: at clock 1000000 the saved
teammate is fresh and the resume prompt is produced, at clock 100000000
it is stale and the fresh launch prompt is produced.  So the generator is
not a pure function of those five inputs. -/
theorem generateLeadPrompt_clock_dependence_counterexample :
    generateLeadPrompt 1000000 "/cwd" { team := some c9Team } (some c9State) c9Wt
        "h1" 14400000
      ≠ generateLeadPrompt 100000000 "/cwd" { team := some c9Team } (some c9State) c9Wt
        "h1" 14400000 := by
  intro h
  have h2 := congrArg (fun o => ((Option.getD o "").data.take 9)) h
  exact absurd h2 (by decide)

/-- C9 (amended): the config-hash and staleness-threshold arguments that
`crewStart` passes are silently discarded (the function declares only
three parameters), so the output never depends on them; the remaining
dependence that the claim omits is the system clock, which can flip the
output between the resume and fresh prompts with all five claimed inputs
fixed. -/
theorem generateLeadPrompt_ignores_hash_and_threshold :
    (∀ (now : Int) (cwd : String) (config : PGConfig) (ts : Option TeamState)
        (wt : WorktreePaths) (h₁ h₂ : String) (s₁ s₂ : Nat),
      generateLeadPrompt now cwd config ts wt h₁ s₁
        = generateLeadPrompt now cwd config ts wt h₂ s₂) ∧
    (∃ (now₁ now₂ : Int),
      generateLeadPrompt now₁ "/root" { team := some c9Team } (some c9State) c9Wt
          "h1" 14400000
        ≠ generateLeadPrompt now₂ "/root" { team := some c9Team } (some c9State) c9Wt
          "h1" 14400000) := by
  refine ⟨fun now cwd config ts wt h₁ h₂ s₁ s₂ => rfl, 1000000, 100000000, ?_⟩
  intro h
  have h2 := congrArg (fun o => ((Option.getD o "").data.take 9)) h
  exact absurd h2 (by decide)

/-! ### Worktree registry, crew stop and garbage collection (C7, C8)

The per-project registry `~/.claude/crew/<hash>/worktrees.json` holds
`\x7bworktrees: [\x7bname, branch, path\x7d]\x7d`; per-profile team state lives at
`~/.claude/crew/<hash>/<profile>/team-state.json`.  `crewStop`
(src/bin/cck.js lines 555-584) marks the state stopped and, with
`--cleanup`, removes each existing worktree directory; `findOrphans`
(src/unnamed/part_011 lines 27-137) re-scans the registries against the
states and the filesystem. -/

/-- One entry of `worktrees.json` as `crewStart` writes it. -/
structure WtEntry where
  name : String
  branch : String
  path : String
deriving Repr, DecidableEq

/-- One `~/.claude/crew/<hash>/` project directory: the parsed registry
(`none` = missing or unparsable `worktrees.json`) and the per-profile
team states in directory-listing order. -/
structure GcProject where
  hash : String
  registry : Option (List WtEntry)
  profiles : List (String × TeamState)
deriving Repr, DecidableEq

/-- The filesystem state the GC reads: the project directories and the
set of worktree directories that exist on disk. -/
structure GcFs where
  projects : List GcProject
  dirs : List String
deriving Repr, DecidableEq

/-- What `findTeammateInStates` returns: the teammate's state enriched
with `teamStatus`, `teamUpdatedAt` and `profileName` context. -/
structure TmCtx where
  tm : StateTeammate
  teamStatus : String
  teamUpdatedAt : Nat
  profileName : String
deriving Repr, DecidableEq

/-- Embedding of `findTeammateInStates` (part_011 lines 176-188): the
first state whose `teammates` map contains the name wins. -/
def findTeammateInStates : List (String × TeamState) → String → Option TmCtx
  | [], _ => none
  | (pname, st) :: rest, name =>
      match alookup st.teammates name with
      | some tm => some ⟨tm, st.status, st.updated_at, pname⟩
      | none => findTeammateInStates rest name

/-- The `lastActiveDate` computed by `findOrphans`: the teammate's
`last_active`, else the team's `updated_at` when truthy. -/
def orphanLastActive : Option TmCtx → Option Nat
  | none => none
  | some c =>
      match c.tm.last_active with
      | some la => some la
      | none => if c.teamUpdatedAt ≠ 0 then some c.teamUpdatedAt else none

/-- The `isStale` flag of `findOrphans`: age beyond
`staleAfterHours * 3600000` ms (false when no date is known). -/
def orphanStale (now sah : Nat) : Option Nat → Bool
  | none => false
  | some la => sah * 3600000 < now - la

/-- The orphan-reason cascade of `findOrphans` (part_011 lines 96-105):
`directory-missing`, then `team-stopped`, then `teammate-stopped`, then
`stale`. -/
def orphanReason (dirExists : Bool) (tmCtx : Option TmCtx) (stale : Bool) : Option String :=
  if !dirExists then some "directory-missing"
  else if (match tmCtx with | some c => c.teamStatus == "stopped" | none => false) then
    some "team-stopped"
  else if (match tmCtx with | some c => c.tm.status == "stopped" | none => false) then
    some "teammate-stopped"
  else if stale then some "stale"
  else none

/-- One orphan report.  The display-only `ageDays` and `diskSize` fields
(a rounded quotient of the same clock reading, and a disk walk) are not
carried. -/
structure OrphanInfo where
  projectHash : String
  name : String
  branch : String
  path : String
  reason : String
  existsDir : Bool
  lastActive : Option Nat
  profile : String
deriving Repr, DecidableEq

/-- The per-worktree body of the `findOrphans` loop. -/
def orphanCheck (now sah : Nat) (dirs : List String)
    (profiles : List (String × TeamState)) (hash : String) (w : WtEntry) :
    Option OrphanInfo :=
  (orphanReason (dirs.contains w.path) (findTeammateInStates profiles w.name)
      (orphanStale now sah (orphanLastActive (findTeammateInStates profiles w.name)))).map
    (fun rsn =>
      { projectHash := hash, name := w.name, branch := w.branch, path := w.path,
        reason := rsn, existsDir := dirs.contains w.path,
        lastActive := orphanLastActive (findTeammateInStates profiles w.name),
        profile :=
          match findTeammateInStates profiles w.name with
          | some c => c.profileName
          | none => "unknown" })

/-- The per-project body of `findOrphans`: skip projects without a
parsable registry, otherwise check every registered worktree. -/
def projectOrphans (now sah : Nat) (dirs : List String) (proj : GcProject) :
    List OrphanInfo :=
  match proj.registry with
  | none => []
  | some entries => entries.filterMap (orphanCheck now sah dirs proj.profiles proj.hash)

/-- Embedding of `findOrphans` (part_011): scan every project registry. -/
def findOrphans (now sah : Nat) (fs : GcFs) : List OrphanInfo :=
  fs.projects.flatMap (projectOrphans now sah fs.dirs)

/-- Replace the value stored under a key (the team-state save for a
profile that already has state). -/
def aset {α : Type} (l : List (String × α)) (k : String) (v : α) :
    List (String × α) :=
  l.map (fun kv => if kv.1 == k then (kv.1, v) else kv)

/-- What `crewStop` saves for a loaded state: team status `stopped`,
every teammate status `stopped`, and `updated_at` stamped by
`saveTeamState`. -/
def stopTeamState (now : Nat) (st : TeamState) : TeamState :=
  { st with
    status := "stopped"
    updated_at := now
    teammates := st.teammates.map (fun nt => (nt.1, { nt.2 with status := "stopped" })) }

/-- The directories left after the `--cleanup` loop removes every
teammate worktree directory that exists (`git worktree remove --force`
succeeding, the claim's premise). -/
def cleanupDirs (st : TeamState) (dirs : List String) : List String :=
  dirs.filter (fun d => !(st.teammates.any (fun nt => nt.2.worktree_path == some d)))

/-- Embedding of the `crewStop` loop body for one profile (cck.js lines
555-584): if the profile has no state nothing happens; otherwise the
stopped state is saved and, with `--cleanup`, the worktree directories
are removed.  The worktree registry is never touched. -/
def crewStopProfile (now : Nat) (cleanup : Bool) (proj : GcProject)
    (profileName : String) (dirs : List String) : GcProject × List String :=
  match alookup proj.profiles profileName with
  | none => (proj, dirs)
  | some st =>
      ({ proj with profiles := aset proj.profiles profileName (stopTeamState now st) },
       if cleanup then cleanupDirs (stopTeamState now st) dirs else dirs)

/-- A live teammate state before the stop. -/
def c7Teammate : StateTeammate :=
  { status := "active", branch := some "feat/a", worktree_path := some "/repo-feat--a",
    agent_id := some "agent-1", last_active := some 1000 }

/-- A running single-teammate team state. -/
def c7State : TeamState :=
  { status := "active", config_hash := "h", updated_at := 1000,
    teammates := [("alice", c7Teammate)] }

/-- A project whose registry lists the one worktree of [c7State]. -/
def c7Proj : GcProject :=
  { hash := "abc123def456",
    registry := some [⟨"alice", "feat/a", "/repo-feat--a"⟩],
    profiles := [("default", c7State)] }

/-- The filesystem right after `stop --cleanup` succeeds on [c7Proj]. -/
def c7After : GcFs :=
  { projects := [(crewStopProfile 2000 true c7Proj "default" ["/repo-feat--a"]).1],
    dirs := (crewStopProfile 2000 true c7Proj "default" ["/repo-feat--a"]).2 }

/-- C7 counterexample: immediately after a successful `stop --cleanup`
the garbage collector does NOT return the empty list for the project —
the stopped profile's registered worktree is reported as an orphan with
reason `directory-missing`, because `crewStop` removes the directory but
never removes the registry entry, and `findOrphans` flags every
registered worktree whose directory is gone (and would otherwise flag it
as `team-stopped`). -/
theorem findOrphans_after_stop_cleanup_counterexample :
    findOrphans 2000 4 c7After ≠ [] ∧
    (findOrphans 2000 4 c7After).map (fun o => o.reason) = ["directory-missing"] := by
  decide

/-- Looking a key up after mapping every teammate to its stopped copy
returns the stopped copy of the original hit. -/
theorem alookup_stop (l : List (String × StateTeammate)) (k : String) :
    alookup (l.map (fun nt => (nt.1, { nt.2 with status := "stopped" }))) k
      = (alookup l k).map (fun s => { s with status := "stopped" }) := by
  induction l with
  | nil => rfl
  | cons kv t ih =>
      simp only [List.map_cons, alookup, List.find?_cons] at ih ⊢
      cases h : kv.1 == k with
      | true => simp only [h]; rfl
      | false => simp only [h]; exact ih

/-- C7 (amended): after a successful `stop --cleanup` for a profile,
`findOrphans` is NOT empty for that project; on the contrary, every
registered worktree whose teammate is in that profile's state is reported
as an orphan, with reason `directory-missing` (directory removed by the
cleanup) or `team-stopped` (directory somehow still present but the team
state is stopped).  The registry is never cleared by `crewStop`, so the
claimed `∅` result is exactly inverted. -/
theorem findOrphans_reports_stopped_worktrees
    (now now2 sah : Nat) (hash profileName : String) (st : TeamState)
    (entries : List WtEntry) (dirs : List String) (e : WtEntry)
    (he : e ∈ entries)
    (htm : (alookup st.teammates e.name).isSome = true) :
    ∃ o ∈ findOrphans now2 sah
        { projects := [(crewStopProfile now true
            ⟨hash, some entries, [(profileName, st)]⟩ profileName dirs).1],
          dirs := (crewStopProfile now true
            ⟨hash, some entries, [(profileName, st)]⟩ profileName dirs).2 },
      o.name = e.name ∧ o.path = e.path ∧
        (o.reason = "directory-missing" ∨ o.reason = "team-stopped") := by
  obtain ⟨tm, htm2⟩ := Option.isSome_iff_exists.mp htm
  have hstop : crewStopProfile now true
      ⟨hash, some entries, [(profileName, st)]⟩ profileName dirs
      = (⟨hash, some entries, [(profileName, stopTeamState now st)]⟩,
         cleanupDirs (stopTeamState now st) dirs) := by
    simp [crewStopProfile, alookup, aset]
  have hctx : findTeammateInStates [(profileName, stopTeamState now st)] e.name
      = some ⟨{ tm with status := "stopped" }, "stopped", now, profileName⟩ := by
    have halk : alookup (stopTeamState now st).teammates e.name
        = some { tm with status := "stopped" } := by
      show alookup (st.teammates.map
          (fun nt => ((nt.1, { nt.2 with status := "stopped" }) : String × StateTeammate)))
          e.name = some { tm with status := "stopped" }
      rw [alookup_stop, htm2]
      rfl
    simp only [findTeammateInStates]
    rw [halk]
    rfl
  rw [hstop]
  have hfe : ∃ o, orphanCheck now2 sah (cleanupDirs (stopTeamState now st) dirs)
        [(profileName, stopTeamState now st)] hash e = some o ∧
      o.name = e.name ∧ o.path = e.path ∧
        (o.reason = "directory-missing" ∨ o.reason = "team-stopped") := by
    cases hd : (cleanupDirs (stopTeamState now st) dirs).contains e.path with
    | false =>
        have hoc : orphanCheck now2 sah (cleanupDirs (stopTeamState now st) dirs)
            [(profileName, stopTeamState now st)] hash e
            = some { projectHash := hash, name := e.name, branch := e.branch,
                     path := e.path, reason := "directory-missing", existsDir := false,
                     lastActive := orphanLastActive (some ⟨{ tm with status := "stopped" },
                       "stopped", now, profileName⟩),
                     profile := profileName } := by
          have hd2 : e.path ∉ cleanupDirs (stopTeamState now st) dirs := by
            simpa using hd
          simp [orphanCheck, hctx, hd, hd2, orphanReason]
        exact ⟨_, hoc, rfl, rfl, Or.inl rfl⟩
    | true =>
        have hoc : orphanCheck now2 sah (cleanupDirs (stopTeamState now st) dirs)
            [(profileName, stopTeamState now st)] hash e
            = some { projectHash := hash, name := e.name, branch := e.branch,
                     path := e.path, reason := "team-stopped", existsDir := true,
                     lastActive := orphanLastActive (some ⟨{ tm with status := "stopped" },
                       "stopped", now, profileName⟩),
                     profile := profileName } := by
          have hd2 : e.path ∈ cleanupDirs (stopTeamState now st) dirs := by
            simpa using hd
          simp [orphanCheck, hctx, hd, hd2, orphanReason]
        exact ⟨_, hoc, rfl, rfl, Or.inr rfl⟩
  obtain ⟨o, hfe, h1, h2, h3⟩ := hfe
  refine ⟨o, ?_, h1, h2, h3⟩
  show o ∈ findOrphans now2 sah
      { projects := [⟨hash, some entries, [(profileName, stopTeamState now st)]⟩],
        dirs := cleanupDirs (stopTeamState now st) dirs }
  simp only [findOrphans, projectOrphans, List.flatMap_cons, List.flatMap_nil,
    List.append_nil]
  exact List.mem_filterMap.mpr ⟨e, he, hfe⟩

/-- A second concrete teammate state used to instantiate the amended C7
theorem. -/
def c7WState : TeamState :=
  { status := "active", config_hash := "h2", updated_at := 900,
    teammates := [("bob",
      { status := "active", branch := some "feat/b",
        worktree_path := some "/r-feat--b",
        agent_id := some "agent-2", last_active := some 900 })] }

/-- Closed instance of the amended C7 theorem at a concrete stopped
profile. -/
theorem findOrphans_reports_stopped_worktrees_witness :
    ∃ o ∈ findOrphans 2000 4
        { projects := [(crewStopProfile 1500 true
            ⟨"h2proj", some [⟨"bob", "feat/b", "/r-feat--b"⟩], [("default", c7WState)]⟩
            "default" ["/r-feat--b"]).1],
          dirs := (crewStopProfile 1500 true
            ⟨"h2proj", some [⟨"bob", "feat/b", "/r-feat--b"⟩], [("default", c7WState)]⟩
            "default" ["/r-feat--b"]).2 },
      o.name = WtEntry.name ⟨"bob", "feat/b", "/r-feat--b"⟩ ∧
      o.path = WtEntry.path ⟨"bob", "feat/b", "/r-feat--b"⟩ ∧
        (o.reason = "directory-missing" ∨ o.reason = "team-stopped") :=
  findOrphans_reports_stopped_worktrees 1500 2000 4 "h2proj" "default" c7WState
    [⟨"bob", "feat/b", "/r-feat--b"⟩] ["/r-feat--b"] ⟨"bob", "feat/b", "/r-feat--b"⟩
    (by decide) (by decide)

/-! ### `crewStart` registry write (src/bin/cck.js lines 425-484, C8)

Step 7 writes `worktrees.json`; step 8 then calls
`generateLeadPrompt(team, teamState, worktreePaths, configHash,
staleAfterMs)`, and since the resolved team object passed as `config` has
no `team` key, the generator throws a TypeError reading `team.name`
(modelled as its `none` result).  The throw reaches the entry point's
top-level catch, which exits 1, so the step-9 `saveTeamState` never runs:
after `start` the registry is written but no team state exists. -/

/-- A teammate as `crewStart` reads it from the resolved profile: name,
branch, and whether a worktree is requested. -/
structure CSTeammate where
  name : String
  branch : String
  worktree : Bool := true
deriving Repr, DecidableEq

/-- The `worktreePaths` assignments of step 6 (cck.js lines 426-432): one
path per worktree teammate, recorded before any `git worktree add`
attempt, so present even when creation fails. -/
def crewStartPaths (root : String) (pn : Option String)
    (teammates : List CSTeammate) : List (String × String) :=
  teammates.filterMap (fun t =>
    if t.worktree then some (t.name, resolveWorktreePath root t.branch pn) else none)

/-- The `worktreeEntries` written to `worktrees.json` (cck.js lines
470-476): worktree teammates with a truthy recorded path, mapped to
`\x7bname, branch, path\x7d`. -/
def crewStartRegistryEntries (root : String) (pn : Option String)
    (teammates : List CSTeammate) : List WtEntry :=
  teammates.filterMap (fun m =>
    if m.worktree then
      match wtLookup (crewStartPaths root pn teammates) m.name with
      | some p => if p = "" then none else some ⟨m.name, m.branch, p⟩
      | none => none
    else none)

/-- The JSON object serialized for one registry entry — exactly the three
keys the object literal at cck.js lines 472-476 lists. -/
def wtEntryJson (e : WtEntry) : Json :=
  Json.obj [("name", Json.str e.name), ("branch", Json.str e.branch),
            ("path", Json.str e.path)]

/-- The top-level keys of a JSON object (`[]` for non-objects). -/
def jsonObjKeys : Json → List String
  | Json.obj kvs => kvs.map (fun kv => kv.1)
  | _ => []

/-- The value serialized into `worktrees.json` (cck.js lines 477-480). -/
def crewStartRegistryJson (root : String) (pn : Option String)
    (teammates : List CSTeammate) : Json :=
  Json.obj [("worktrees",
    Json.arr ((crewStartRegistryEntries root pn teammates).map wtEntryJson))]

/-- A string with a `-` glued into the middle is never empty. -/
theorem append_dash_ne_empty (a b : String) : a ++ "-" ++ b ≠ "" := by
  intro h
  have h2 : (a ++ "-" ++ b).data.length = 0 := by rw [h]; rfl
  rw [string_data_append, string_data_append] at h2
  have h3 : ("-" : String).data = ['-'] := rfl
  rw [h3] at h2
  simp only [List.length_append, List.length_cons, List.length_nil] at h2
  omega

/-- Every worktree path contains the root, a dash, and the sanitized
branch, so it is never the empty string (never falsy in JS). -/
theorem resolveWorktreePath_ne_empty (root b : String) (pn : Option String) :
    resolveWorktreePath root b pn ≠ "" := by
  unfold resolveWorktreePath
  cases pn with
  | none => exact append_dash_ne_empty root (sanitizeBranchJs b)
  | some p =>
      show (if p = "" ∨ p = "default" then root ++ "-" ++ sanitizeBranchJs b
        else root ++ "-" ++ p ++ "-" ++ sanitizeBranchJs b) ≠ ""
      by_cases hp : p = "" ∨ p = "default"
      · rw [if_pos hp]
        exact append_dash_ne_empty root (sanitizeBranchJs b)
      · rw [if_neg hp]
        exact append_dash_ne_empty (root ++ "-" ++ p) (sanitizeBranchJs b)

/-- First-wins association lookup hits the unique value of a key. -/
theorem alookup_eq_of_unique {α : Type} (l : List (String × α)) (k : String) (v : α)
    (hmem : (k, v) ∈ l) (huniq : ∀ w ∈ l, w.1 = k → w.2 = v) :
    alookup l k = some v := by
  have hs : (l.find? (fun kv => kv.1 == k)).isSome := by
    apply List.find?_isSome.mpr
    exact ⟨(k, v), hmem, by simp⟩
  obtain ⟨w, hw⟩ := Option.isSome_iff_exists.mp hs
  have h1 := List.find?_some hw
  have h2 : w ∈ l := List.mem_of_find?_eq_some hw
  unfold alookup
  rw [hw]
  exact congrArg some (huniq w h2 (by exact beq_iff_eq.mp h1))

/-- Last-wins lookup (repeated JS object assignment) hits the unique
value of a key. -/
theorem wtLookup_eq_of_unique (l : List (String × String)) (k v : String)
    (hmem : (k, v) ∈ l) (huniq : ∀ w ∈ l, w.1 = k → w.2 = v) :
    wtLookup l k = some v :=
  alookup_eq_of_unique l.reverse k v (List.mem_reverse.mpr hmem)
    (fun w hw => huniq w (List.mem_reverse.mp hw))

/-- Two teammates of a duplicate-free roster with the same name are the
same teammate. -/
theorem csTeammate_name_inj {teammates : List CSTeammate}
    (hnd : (teammates.map (fun t => t.name)).Nodup)
    {t m : CSTeammate} (ht : t ∈ teammates) (hm : m ∈ teammates)
    (h : t.name = m.name) : t = m :=
  List.inj_on_of_nodup_map hnd ht hm h

/-- A worktree teammate used to exhibit the written registry entry. -/
def c8Mate : CSTeammate := { name := "carol", branch := "feat/c" }

/-- C8 counterexample: the registry entry `crewStart` writes for a
worktree teammate has exactly the keys `name`, `branch`, `path` — there
is no `created_at` key anywhere in the object literal (cck.js lines
472-476), unlike the bash `_register_worktree`, which the JS entry point
never calls. -/
theorem crewStart_registry_no_created_at_counterexample :
    crewStartRegistryEntries "/repo" (some "dev") [c8Mate]
      = [⟨"carol", "feat/c", "/repo-dev-feat--c"⟩] ∧
    jsonObjKeys (wtEntryJson ⟨"carol", "feat/c", "/repo-dev-feat--c"⟩)
      = ["name", "branch", "path"] ∧
    "created_at" ∉ jsonObjKeys (wtEntryJson ⟨"carol", "feat/c", "/repo-dev-feat--c"⟩) := by
  decide

/-- C8 (amended): after `start`, every teammate of the selected profile
with `worktree = true` (on a duplicate-free roster) has a registry entry
of shape `\x7bname, branch, path\x7d` — without any `created_at` key — whose
name and branch are the teammate's and whose path is the resolved
worktree path.  There is no TeamState entry to compare against: the
prompt-generation call that `start` makes right after the registry write
passes the resolved team object as `config`, whose `team` key is absent,
so the generator throws (modelled `none`) for every clock, working
directory, prior state, worktree map, hash and threshold, and `start`
aborts before the step-9 state save. -/
theorem crewStart_registry_entry_shape
    (root : String) (pn : Option String)
    (teammates : List CSTeammate) (m : CSTeammate)
    (hm : m ∈ teammates) (hw : m.worktree = true)
    (hnd : (teammates.map (fun t => t.name)).Nodup) :
    (⟨m.name, m.branch, resolveWorktreePath root m.branch pn⟩ : WtEntry)
        ∈ crewStartRegistryEntries root pn teammates ∧
    jsonObjKeys (wtEntryJson ⟨m.name, m.branch, resolveWorktreePath root m.branch pn⟩)
      = ["name", "branch", "path"] ∧
    (∀ (now : Int) (cwd : String) (ts : Option TeamState) (wt : WorktreePaths)
        (h : String) (s : Nat),
      generateLeadPrompt now cwd { team := none } ts wt h s = none) := by
  have hne := resolveWorktreePath_ne_empty root m.branch pn
  have hlk : wtLookup (crewStartPaths root pn teammates) m.name
      = some (resolveWorktreePath root m.branch pn) := by
    apply wtLookup_eq_of_unique
    · exact List.mem_filterMap.mpr ⟨m, hm, by simp [hw]⟩
    · intro w hwmem hk
      obtain ⟨t, htmem, hft⟩ := List.mem_filterMap.mp hwmem
      cases htw : t.worktree with
      | false => rw [htw] at hft; simp at hft
      | true =>
          rw [htw] at hft
          simp only [if_pos] at hft
          have hw1 : w = (t.name, resolveWorktreePath root t.branch pn) := by
            exact (Option.some_inj.mp hft).symm
          have htm : t = m := by
            apply csTeammate_name_inj hnd htmem hm
            rw [← hk, hw1]
          rw [hw1, htm]
  refine ⟨?_, rfl, fun now cwd ts wt h s => rfl⟩
  apply List.mem_filterMap.mpr
  refine ⟨m, hm, ?_⟩
  rw [hw]
  simp only [if_pos]
  rw [hlk]
  show (if resolveWorktreePath root m.branch pn = "" then none
      else some (⟨m.name, m.branch, resolveWorktreePath root m.branch pn⟩ : WtEntry))
    = some ⟨m.name, m.branch, resolveWorktreePath root m.branch pn⟩
  rw [if_neg hne]

/-- Closed instance of the amended C8 theorem at a concrete one-teammate
profile. -/
theorem crewStart_registry_entry_shape_witness :
    (⟨"dana", "feat/d", resolveWorktreePath "/r2" "feat/d" (some "qa")⟩ : WtEntry)
        ∈ crewStartRegistryEntries "/r2" (some "qa") [⟨"dana", "feat/d", true⟩] ∧
    jsonObjKeys (wtEntryJson
        ⟨"dana", "feat/d", resolveWorktreePath "/r2" "feat/d" (some "qa")⟩)
      = ["name", "branch", "path"] ∧
    (∀ (now : Int) (cwd : String) (ts : Option TeamState) (wt : WorktreePaths)
        (h : String) (s : Nat),
      generateLeadPrompt now cwd { team := none } ts wt h s = none) :=
  crewStart_registry_entry_shape "/r2" (some "qa")
    [⟨"dana", "feat/d", true⟩] ⟨"dana", "feat/d", true⟩
    (by decide) (by decide) (by decide)


end CCK
